import Mathlib

/-!
Verification of the sticky-backend story pipeline (AdonisJS + OpenAI glue).

The TypeScript services and controllers are shallowly embedded as pure Lean
functions.  Remote generative calls are modelled as oracle inputs: a chat
completion is a `ChatContent` (the message content, at the level of its JSON
parse outcome), an image generation is an `Option String` (the value of
`response.data?.[0]?.url`).  Since the TypeScript code casts parsed JSON with
`as` and never validates element shapes, dynamic values are embedded as
`JsValue` (a JavaScript value: JSON plus `undefined`), and property access /
`.length` access follow JavaScript semantics (throwing on `null`/`undefined`).
-/

/-- A JavaScript runtime value as it appears in this pipeline: the JSON data
model plus `undefined`.  Object fields are kept in insertion order. -/
inductive JsValue where
  | undefined
  | null
  | bool (b : Bool)
  | num (n : Int)
  | str (s : String)
  | arr (elems : List JsValue)
  | obj (fields : List (String × JsValue))

/-- JavaScript truthiness (`NaN` does not arise in this model). -/
def truthy : JsValue → Bool
  | .undefined => false
  | .null => false
  | .bool b => b
  | .num n => n != 0
  | .str s => s != ""
  | .arr _ => true
  | .obj _ => true

/-- JavaScript property access `v[k]` for a named key.  Accessing a property
of `null` or `undefined` throws a `TypeError` (the `.error` case); any other
non-object simply yields `undefined`. -/
def getProp : JsValue → String → Except Unit JsValue
  | .undefined, _ => .error ()
  | .null, _ => .error ()
  | .obj fields, k => .ok (((fields.find? (fun kv => kv.1 == k)).map (fun kv => kv.2)).getD .undefined)
  | _, _ => .ok .undefined

/-- JavaScript `.length` access: throws on `null`/`undefined` (the `.error`
case), is the element/character count on arrays and strings, and is
`undefined` (modelled as `none`) on the other values. -/
def jsLength : JsValue → Except Unit (Option Nat)
  | .undefined => .error ()
  | .null => .error ()
  | .arr xs => .ok (some xs.length)
  | .str s => .ok (some s.length)
  | _ => .ok none

/-- The own enumerable properties contributed by `{...v}`: the fields of an
object, the indexed elements of an array, the indexed characters of a string,
and nothing for the remaining primitives. -/
def ownFields : JsValue → List (String × JsValue)
  | .obj fs => fs
  | .arr xs => xs.enum.map (fun ix => (toString ix.1, ix.2))
  | .str s => s.toList.enum.map (fun ic => (toString ic.1, .str (String.mk [ic.2])))
  | _ => []

/-- Set key `k` to `v` in an insertion-ordered field list: an existing key is
overwritten in place, a new key is appended (JavaScript object semantics). -/
def setField (fields : List (String × JsValue)) (k : String) (v : JsValue) :
    List (String × JsValue) :=
  if fields.any (fun kv => kv.1 == k) then
    fields.map (fun kv => if kv.1 == k then (k, v) else kv)
  else fields ++ [(k, v)]

/-- Decimal digit characters of `n`, built with structural fuel so that the
kernel can evaluate it (`natCharsAux (n+1) n` always has enough fuel). -/
def natCharsAux : Nat → Nat → List Char
  | 0, _ => []
  | f + 1, n =>
    if n < 10 then [Char.ofNat (48 + n)]
    else natCharsAux f (n / 10) ++ [Char.ofNat (48 + n % 10)]

/-- Decimal digit characters of a natural number, most significant first. -/
def natChars (n : Nat) : List Char := natCharsAux (n + 1) n

/-- Decimal characters of an integer: optional minus sign, then digits.  This
is how both template-literal interpolation and `JSON.stringify` print the
(integer-valued) numbers of this model. -/
def intChars (i : Int) : List Char :=
  if i < 0 then '-' :: natChars i.natAbs else natChars i.natAbs

mutual
/-- String conversion of a `JsValue` as JavaScript template-literal
interpolation performs it (`String(v)`): strings verbatim, numbers in decimal,
arrays joined by commas with `null`/`undefined` elements blanked, and plain
objects as `[object Object]`. -/
def jsDisplay : JsValue → String
  | .undefined => "undefined"
  | .null => "null"
  | .bool true => "true"
  | .bool false => "false"
  | .num n => String.mk (intChars n)
  | .str s => s
  | .arr xs => jsDisplayElems xs
  | .obj _ => "[object Object]"

/-- Array `toString` body: elements joined by `,`. -/
def jsDisplayElems : List JsValue → String
  | [] => ""
  | [x] => jsDisplayElem x
  | x :: xs => jsDisplayElem x ++ "," ++ jsDisplayElems xs

/-- An array element inside `Array.prototype.toString`: `null` and
`undefined` print as the empty string. -/
def jsDisplayElem : JsValue → String
  | .undefined => ""
  | .null => ""
  | v => jsDisplay v
end

/-! ## JSON.stringify

`stringify` prints a `JsValue` exactly as `JSON.stringify(v)` (no indent
argument) does: compact output, insertion-ordered object fields,
`undefined`-valued properties dropped, `undefined` array elements printed as
`null`, and strings escaped with `\"`, `\\`, `\b`, `\t`, `\n`, `\f`, `\r`
and `\u00XX` for the remaining control characters.  (At the top level
`JSON.stringify(undefined)` is not a string; that case is unreachable in this
model because every serialized value is truthy-checked first.) -/

/-- Is this value `undefined`?  (`JSON.stringify` drops such fields.) -/
def jsIsUndef : JsValue → Bool
  | .undefined => true
  | _ => false

/-- Lower-case hexadecimal digit character for `n % 16`. -/
def hexChar (n : Nat) : Char :=
  if n % 16 < 10 then Char.ofNat (48 + n % 16) else Char.ofNat (87 + n % 16)

/-- One character of a JSON string literal, escaped as `JSON.stringify`
escapes it. -/
def escChar (c : Char) : List Char :=
  if c = '"' then ['\\', '"']
  else if c = '\\' then ['\\', '\\']
  else if c = '\n' then ['\\', 'n']
  else if c = '\t' then ['\\', 't']
  else if c = '\r' then ['\\', 'r']
  else if c = Char.ofNat 8 then ['\\', 'b']
  else if c = Char.ofNat 12 then ['\\', 'f']
  else if c.toNat < 32 then ['\\', 'u', '0', '0', hexChar (c.toNat / 16), hexChar (c.toNat % 16)]
  else [c]

/-- The characters of a JSON string literal for `s`, quotes included. -/
def quoteChars (s : String) : List Char :=
  '"' :: (s.toList.map escChar).flatten ++ ['"']

/-- Comma-separated concatenation. -/
def commaJoin : List (List Char) → List Char
  | [] => []
  | [x] => x
  | x :: xs => x ++ ',' :: commaJoin xs

mutual
/-- `JSON.stringify` of one value, as a character list. -/
def stringifyVal : JsValue → List Char
  | .undefined => "null".toList
  | .null => "null".toList
  | .bool true => "true".toList
  | .bool false => "false".toList
  | .num n => intChars n
  | .str s => quoteChars s
  | .arr xs => '[' :: stringifyElems xs ++ [']']
  | .obj fs => '{' :: stringifyFields fs ++ ['}']

/-- Array elements, comma separated (`undefined` elements were already mapped
to `null` by `stringifyVal`). -/
def stringifyElems : List JsValue → List Char
  | [] => []
  | [x] => stringifyVal x
  | x :: xs => stringifyVal x ++ ',' :: stringifyElems xs

/-- Object members, comma separated; fields whose value is `undefined` are
dropped entirely, as `JSON.stringify` drops them. -/
def stringifyFields : List (String × JsValue) → List Char
  | [] => []
  | kv :: fs =>
    if jsIsUndef kv.2 then stringifyFields fs
    else match stringifyFields fs with
      | [] => quoteChars kv.1 ++ ':' :: stringifyVal kv.2
      | rest => quoteChars kv.1 ++ ':' :: stringifyVal kv.2 ++ ',' :: rest
end

/-- `JSON.stringify(v)` as a Lean `String`. -/
def stringify (v : JsValue) : String := String.mk (stringifyVal v)

/-! ## Scenes and chat-call outcomes -/

/-- The `StoryScene` interface of `StoryGeneratorService` (a well-formed
scene; the services themselves never validate that elements have this shape). -/
structure StoryScene where
  id : Int
  narrator : String
  character : String
  characterImagePrompt : String
  dialogue : String
  backgroundPrompt : String

/-- The JavaScript object a well-formed scene materializes as. -/
def sceneToJs (s : StoryScene) : JsValue :=
  .obj [("id", .num s.id), ("narrator", .str s.narrator), ("character", .str s.character),
    ("characterImagePrompt", .str s.characterImagePrompt), ("dialogue", .str s.dialogue),
    ("backgroundPrompt", .str s.backgroundPrompt)]

/-- The JavaScript array a well-formed scene list materializes as. -/
def sceneListToJs (l : List StoryScene) : JsValue := .arr (l.map sceneToJs)

/-- The outcome of one chat-completion call, viewed at the level the services
consume it: `completion.choices[0].message.content` is falsy (`null` or the
empty string), or `JSON.parse` of it throws, or it parses to a value. -/
inductive ChatContent where
  | empty
  | unparseable (raw : String)
  | parsed (v : JsValue)

/-- Message of the `TypeError` raised by a property access on `null` or
`undefined` (the exact JavaScript wording is irrelevant to every claim). -/
def typeErrorMsg : String := "TypeError: cannot read properties of null or undefined"

/-! ## StoryGeneratorService -/

namespace StoryGeneratorService

/-- The system message of the generation call (verbatim apart from quoting). -/
def getSystemMessage : String :=
  "You are an expert creative writer and a strict data architect for a web-based story game. Your task is to generate a linear story.\n\n    RULES:\n    1. Your ENTIRE response MUST be a single, valid JSON object.\n    2. The JSON object must have a single root key named \"story\".\n    3. The value of \"story\" must be a JSON array of scene objects.\n    4. Do NOT include any text, explanations, or markdown before or after the JSON object.\n    5. Each scene object in the array must contain these exact keys: \"id\", \"narrator\", \"character\", \"characterImagePrompt\", \"dialogue\", \"backgroundPrompt\".\n    "

/-- The user prompt of the generation call. -/
def buildInitialPrompt (briefing : String) (sceneCount : Nat) : String :=
  "\n    Generate a story based on the following details. The story array must contain exactly " ++
    toString sceneCount ++ " scenes.\n\n    STORY BRIEFING: \"" ++ briefing ++ "\"\n    "

/-- The uniform error the `catch` block of `generateLinearStory` rethrows. -/
def generationFailureMsg : String := "Failed to generate story from AI service."

/-- `StoryGeneratorService.generateLinearStory`.  Every failure inside the
`try` block (empty content, `JSON.parse` throwing, property access on a
`null` parse result, a missing/non-array `story`, or a scene-count mismatch)
is caught and rethrown as `generationFailureMsg`.  On success the value is
the unvalidated element list of the `story` array. -/
def generateLinearStory (briefing : String) (sceneCount : Nat) (resp : ChatContent) :
    Except String (List JsValue) :=
  let _prompt := buildInitialPrompt briefing sceneCount
  match resp with
  | .empty => .error generationFailureMsg
  | .unparseable _ => .error generationFailureMsg
  | .parsed v =>
    match getProp v "story" with
    | .error _ => .error generationFailureMsg
    | .ok storyArray =>
      match storyArray with
      | .arr xs =>
        if xs.length = sceneCount then .ok xs else .error generationFailureMsg
      | _ => .error generationFailureMsg

/-- The system message of the refinement call (verbatim apart from quoting). -/
def getRefinementSystemMessage : String :=
  "You are a helpful story editor. Your task is to revise and rewrite a story based on user feedback.\n\n    RULES:\n    1. You will be given the [CURRENT_STORY] as a JSON array and a [REFINEMENT_PROMPT] with instructions.\n    2. Your job is to rewrite the story according to the instructions.\n    3. You MUST return the ENTIRE, new version of the story.\n    4. Your response MUST be a single, valid JSON object with a single root key named \"story\".\n    5. The value of \"story\" must be a JSON array of scene objects.\n    6. Maintain the original number of scenes unless specifically asked to change it.\n    7. Ensure every scene object in the new array has the correct keys: \"id\", \"narrator\", \"character\", \"characterImagePrompt\", \"dialogue\", \"backgroundPrompt\".\n    "

/-- The user prompt of the refinement call.  The source pretty-prints the
story with `JSON.stringify(existingStory, null, 2)`; the indentation is
elided here (the prompt text only feeds the oracle). -/
def buildRefinementPrompt (existingStory : JsValue) (refinementPrompt : String) : String :=
  "\n    [CURRENT_STORY]:\n    " ++ stringify existingStory ++
    "\n\n    [REFINEMENT_PROMPT]:\n    \"" ++ refinementPrompt ++
    "\"\n\n    Please revise the story according to the refinement prompt and return the complete, updated story.\n    "

/-- The uniform error the `catch` block of `refineStory` rethrows. -/
def refinementFailureMsg : String := "Failed to refine story from AI service."

/-- `StoryGeneratorService.refineStory`.  `existingStory.length` is read
before the `try` block (a `TypeError` on `null`/`undefined` escapes raw).
Inside the `try`: empty content and unparseable JSON are rethrown uniformly;
if the parsed `story` is an array of exactly the input length it is returned
as is; otherwise `console.warn` fires — which itself reads
`storyArray.length` and therefore throws (and is caught) when `story` is
`null`/`undefined` — and the mismatched value is returned anyway.  The `Bool`
in the result records whether the warning fired. -/
def refineStory (existingStory : JsValue) (refinementPrompt : String) (resp : ChatContent) :
    Except String (JsValue × Bool) :=
  let _prompt := buildRefinementPrompt existingStory refinementPrompt
  match jsLength existingStory with
  | .error _ => .error typeErrorMsg
  | .ok sceneCount =>
    match resp with
    | .empty => .error refinementFailureMsg
    | .unparseable _ => .error refinementFailureMsg
    | .parsed v =>
      match getProp v "story" with
      | .error _ => .error refinementFailureMsg
      | .ok storyArray =>
        if (match storyArray with
            | .arr xs => some xs.length == sceneCount
            | _ => false) then
          .ok (storyArray, false)
        else
          match jsLength storyArray with
          | .error _ => .error refinementFailureMsg
          | .ok _ => .ok (storyArray, true)

end StoryGeneratorService

/-! ## ArtStyleService -/

namespace ArtStyleService

/-- The art-director system message (verbatim apart from quoting and with
possessive apostrophes reworded; the text only feeds the oracle). -/
def getSystemMessage : String :=
  "You are a professional Art Director for a video game studio, specializing in visual storytelling. Your task is to propose three distinct and compelling art styles for a new story.\n\n    RULES:\n    1.  You will be given a description of the first scene.\n    2.  Your response MUST be a single, valid JSON object.\n    3.  The JSON object must have a single root key named \"artStyles\".\n    4.  The value of \"artStyles\" must be a JSON array containing EXACTLY THREE style suggestion objects.\n    5.  Each style suggestion object must have these keys: \"name\", \"description\", and \"imagePrompt\".\n    "

/-- `ArtStyleService.buildPrompt`: reads four properties of the first scene
(these accesses throw when the scene is `null`/`undefined`). -/
def buildPrompt (firstScene : JsValue) : Except String String :=
  match getProp firstScene "narrator", getProp firstScene "character",
      getProp firstScene "characterImagePrompt", getProp firstScene "backgroundPrompt" with
  | .ok n, .ok c, .ok ci, .ok bg =>
    .ok ("\n    Based on the following scene context, please generate three distinct art style proposals.\n\n    [SCENE CONTEXT]:\n    \n    - Setting: " ++
      jsDisplay n ++ "\n    - Character in Scene: " ++ jsDisplay c ++
      "\n    - Character Details: " ++ jsDisplay ci ++
      "\n    - Background Details: " ++ jsDisplay bg ++ "\n    \n    ")
  | _, _, _, _ => .error typeErrorMsg

/-- The error thrown when the style list is missing, not an array, or not of
length three. -/
def styleCountMsg : String := "AI did not return exactly three art style suggestions."

/-- `ArtStyleService.generateStylePrompts` (private helper, step 1).  This
method has no `try`/`catch`: the empty-content error, a raw `SyntaxError`
from `JSON.parse`, a `TypeError` from `parsedResponse.artStyles` on a `null`
parse result, and the exactly-three check all propagate as they are.  The
elements of a length-3 `artStyles` array are returned unvalidated. -/
def generateStylePrompts (firstScene : JsValue) (resp : ChatContent) :
    Except String (List JsValue) :=
  match buildPrompt firstScene with
  | .error e => .error e
  | .ok _prompt =>
    match resp with
    | .empty => .error "OpenAI returned an empty response for art styles."
    | .unparseable raw => .error ("SyntaxError: unexpected token in JSON: " ++ raw)
    | .parsed v =>
      match getProp v "artStyles" with
      | .error _ => .error typeErrorMsg
      | .ok styles =>
        match styles with
        | .arr xs => if xs.length = 3 then .ok xs else .error styleCountMsg
        | _ => .error styleCountMsg

/-- The per-style DALL-E prompt of step 2:
`firstScene.characterImagePrompt ++ ", " ++ style.imagePrompt`. -/
def buildStyleImagePrompt (firstScene : JsValue) (style : JsValue) : Except String String :=
  match getProp firstScene "characterImagePrompt", getProp style "imagePrompt" with
  | .ok ci, .ok ip => .ok (jsDisplay ci ++ ", " ++ jsDisplay ip)
  | _, _ => .error typeErrorMsg

/-- The prompts of the image-generation batch of step 2, in input order (one
request per style; building a prompt can throw before any request is made). -/
def buildStyleImagePrompts (firstScene : JsValue) : List JsValue → Except String (List String)
  | [] => .ok []
  | style :: styles =>
    match buildStyleImagePrompt firstScene style with
    | .error e => .error e
    | .ok p =>
      match buildStyleImagePrompts firstScene styles with
      | .error e => .error e
      | .ok ps => .ok (p :: ps)

/-- `{...style, imageUrl}`: the spread of the style value with the generated
URL set last (an existing `imageUrl` key would be overwritten). -/
def spreadWithImageUrl (style : JsValue) (url : String) : JsValue :=
  .obj (setField (ownFields style) "imageUrl" (.str url))

/-- The error thrown in step 3 when a style got no usable URL; its message
interpolates `style.name` (which itself throws on a `null` style). -/
def missingUrlError (style : JsValue) : Except String (List JsValue) :=
  match getProp style "name" with
  | .error _ => .error typeErrorMsg
  | .ok n => .error ("DALL-E did not return an image URL for style: " ++ jsDisplay n)

/-- Step 3 of `suggestStyles`: join each style with the URL of the image
result of the same index; the first falsy URL (absent or empty) throws and
discards the whole batch. -/
def combineSuggestions : List JsValue → List (Option String) → Except String (List JsValue)
  | [], _ => .ok []
  | style :: styles, r :: rs =>
    match r with
    | none => missingUrlError style
    | some u =>
      if u == "" then missingUrlError style
      else
        match combineSuggestions styles rs with
        | .error e => .error e
        | .ok rest => .ok (spreadWithImageUrl style u :: rest)
  | _ :: _, [] => .error typeErrorMsg

/-- `ArtStyleService.suggestStyles`: style prompts (step 1), one image call
per style in parallel (step 2, responses supplied by `imageOracle` in call
order), positional join (step 3). -/
def suggestStyles (firstScene : JsValue) (resp : ChatContent)
    (imageOracle : Nat → Option String) : Except String (List JsValue) :=
  match generateStylePrompts firstScene resp with
  | .error e => .error e
  | .ok stylePrompts =>
    match buildStyleImagePrompts firstScene stylePrompts with
    | .error e => .error e
    | .ok prompts =>
      let imageResults := (List.range prompts.length).map imageOracle
      combineSuggestions stylePrompts imageResults

end ArtStyleService

/-! ## FinalStoryService -/

namespace FinalStoryService

/-- The error thrown when the vision call returns no consistency prompt. -/
def consistencyFailureMsg : String :=
  "GPT-4o failed to generate a consistency prompt from the image."

/-- `FinalStoryService.createConsistencyPrompt`: the chat content is returned
trimmed; falsy content (`null` or empty) throws. -/
def createConsistencyPrompt (imageUrl : String) (resp : Option String) : Except String String :=
  let _url := imageUrl
  match resp with
  | none => .error consistencyFailureMsg
  | some s => if s == "" then .error consistencyFailureMsg else .ok s.trim

/-- The per-scene DALL-E prompt of step 2: the consistency prompt combined
with the narration, character and dialogue of the scene (three property
accesses that throw on a `null`/`undefined` scene element). -/
def buildFinalPrompt (consistencyPrompt : String) (scene : JsValue) : Except String String :=
  match getProp scene "narrator", getProp scene "character", getProp scene "dialogue" with
  | .ok n, .ok c, .ok d =>
    .ok (consistencyPrompt ++ ". The scene is: \"" ++ jsDisplay n ++
      "\". The character is " ++ jsDisplay c ++ " and they are saying \"" ++ jsDisplay d ++ "\".")
  | _, _, _ => .error typeErrorMsg

/-- The prompts of the image-generation batch of step 2, one per scene, in
scene order. -/
def buildFinalPrompts (consistencyPrompt : String) : List JsValue → Except String (List String)
  | [] => .ok []
  | scene :: scenes =>
    match buildFinalPrompt consistencyPrompt scene with
    | .error e => .error e
    | .ok p =>
      match buildFinalPrompts consistencyPrompt scenes with
      | .error e => .error e
      | .ok ps => .ok (p :: ps)

/-- The error thrown when a scene got no usable URL; its message interpolates
`scene.id`. -/
def missingSceneImage (scene : JsValue) : Except String (List JsValue) :=
  match getProp scene "id" with
  | .error _ => .error typeErrorMsg
  | .ok i => .error ("DALL-E failed to generate image for scene " ++ jsDisplay i)

/-- `{...scene, characterImagePrompt: imageUrl, backgroundPrompt: ""}`. -/
def finalizeScene (scene : JsValue) (url : String) : JsValue :=
  .obj (setField (setField (ownFields scene) "characterImagePrompt" (.str url))
    "backgroundPrompt" (.str ""))

/-- The final join of `generateFinalImages`: each scene is overwritten with
the URL of the image result of the same index; the first falsy URL throws and
discards the whole batch. -/
def combineFinalScenes : List JsValue → List (Option String) → Except String (List JsValue)
  | [], _ => .ok []
  | scene :: scenes, r :: rs =>
    match r with
    | none => missingSceneImage scene
    | some u =>
      if u == "" then missingSceneImage scene
      else
        match combineFinalScenes scenes rs with
        | .error e => .error e
        | .ok rest => .ok (finalizeScene scene u :: rest)
  | _ :: _, [] => .error typeErrorMsg

/-- `FinalStoryService.generateFinalImages`: derive the consistency prompt
(step 1), then map over the scene array building one image call per scene
(step 2, responses supplied by `imageOracle` in call order), then join
positionally.  There is no emptiness check on `scenes`; a non-array scene
state throws at `scenes.map`. -/
def generateFinalImages (scenes : JsValue) (referenceImageUrl : String)
    (cResp : Option String) (imageOracle : Nat → Option String) : Except String JsValue :=
  match createConsistencyPrompt referenceImageUrl cResp with
  | .error e => .error e
  | .ok consistencyPrompt =>
    match scenes with
    | .arr xs =>
      match buildFinalPrompts consistencyPrompt xs with
      | .error e => .error e
      | .ok prompts =>
        let imageResults := (List.range prompts.length).map imageOracle
        match combineFinalScenes xs imageResults with
        | .error e => .error e
        | .ok finalized => .ok (.arr finalized)
    | _ => .error "TypeError: scenes.map is not a function"

end FinalStoryService

/-! ## The session model and the controllers

The database is a list of session rows; `session.save()` replaces the row in
place.  Request validation by the vine library is embedded directly for the
length/range rules (`minLength`, `min`, `max`) and as a boolean oracle for
`vine.string().url()` (the URL grammar is external to this repository). -/

/-- The persisted `StorySession` row (timestamps are system managed and not
modelled; the internal numeric id plays no role, rows are addressed by
uuid). -/
structure StorySession where
  uuid : Option String
  initialBriefing : String
  sceneCount : Nat
  currentStoryState : JsValue

/-- The `beforeCreate` hook: assign `fresh` (the `randomUUID()` draw) when
the uuid is still falsy (`undefined` or empty). -/
def generateUuid (session : StorySession) (fresh : String) : StorySession :=
  if (match session.uuid with | none => true | some s => s == "") then
    { session with uuid := some fresh }
  else session

/-- `StorySession.findBy('uuid', id)`. -/
def dbFind (db : List StorySession) (id : String) : Option StorySession :=
  db.find? (fun s => s.uuid == some id)

/-- `session.save()`: overwrite the row bearing this uuid. -/
def dbSave (db : List StorySession) (id : String) (s : StorySession) : List StorySession :=
  db.map (fun t => if t.uuid == some id then s else t)

/-- The session `StorySession.create(...)` builds in the create flow: the
`beforeCreate` hook runs on the attribute object (no uuid yet) before the
insert. -/
def mkSession (briefing : String) (sceneCount : Nat) (fresh : String)
    (story : List JsValue) : StorySession :=
  generateUuid
    { uuid := none, initialBriefing := briefing, sceneCount := sceneCount,
      currentStoryState := .arr story } fresh

/-- Body of the create/refine responses. -/
structure StoryResponse where
  sessionId : Option String
  story : JsValue

/-- The 422 a failed vine validation surfaces as. -/
def validationErrMsg : String := "ValidationError"

/-- The 404 `findByOrFail` surfaces as. -/
def notFoundMsg : String := "Row not found"

namespace StoryGeneratorController

/-- `StoryGeneratorController.store` (create story): validate the payload,
generate, then create the session; the pair is (database after the request,
response or error), with the database unchanged on every error path. -/
def store (db : List StorySession) (briefing : String) (sceneCount : Nat)
    (fresh : String) (resp : ChatContent) :
    List StorySession × Except String StoryResponse :=
  if briefing.length < 10 || sceneCount < 2 || 10 < sceneCount then
    (db, .error validationErrMsg)
  else
    match StoryGeneratorService.generateLinearStory briefing sceneCount resp with
    | .error e => (db, .error e)
    | .ok initialStory =>
      let session := mkSession briefing sceneCount fresh initialStory
      (db ++ [session],
        .ok { sessionId := session.uuid, story := session.currentStoryState })

/-- `StoryGeneratorController.update` (refine story): find the session by
uuid, validate the prompt, refine, then save the new story state. -/
def update (db : List StorySession) (paramsId : String) (prompt : String)
    (resp : ChatContent) : List StorySession × Except String StoryResponse :=
  match dbFind db paramsId with
  | none => (db, .error notFoundMsg)
  | some session =>
    if prompt.length < 5 then (db, .error validationErrMsg)
    else
      match StoryGeneratorService.refineStory session.currentStoryState prompt resp with
      | .error e => (db, .error e)
      | .ok (refinedStory, _warned) =>
        let saved := { session with currentStoryState := refinedStory }
        (dbSave db paramsId saved,
          .ok { sessionId := saved.uuid, story := saved.currentStoryState })

end StoryGeneratorController

namespace FinalStoriesController

/-- `FinalStoriesController.store` (finalize illustrations): find the session
by uuid, validate the reference URL (`urlOk` is the verdict of
`vine.string().url()`), run the final-illustration stage, then save.  There
is no emptiness check on the story state. -/
def store (db : List StorySession) (paramsSessionId : String)
    (referenceImageUrl : String) (urlOk : Bool) (cResp : Option String)
    (imageOracle : Nat → Option String) :
    List StorySession × Except String StorySession :=
  match dbFind db paramsSessionId with
  | none => (db, .error notFoundMsg)
  | some session =>
    if !urlOk then (db, .error validationErrMsg)
    else
      match FinalStoryService.generateFinalImages session.currentStoryState
          referenceImageUrl cResp imageOracle with
      | .error e => (db, .error e)
      | .ok finalized =>
        let saved := { session with currentStoryState := finalized }
        (dbSave db paramsSessionId saved, .ok saved)

end FinalStoriesController

/-- The sessions reachable through the create, refine and finalize
operations, carrying exactly the controller-side validations and the
service-success conditions of the corresponding request flows. -/
inductive ReachableSession : StorySession → Prop
  | created (briefing : String) (sceneCount : Nat) (fresh : String) (resp : ChatContent)
      (story : List JsValue) :
      10 ≤ briefing.length → 2 ≤ sceneCount → sceneCount ≤ 10 →
      StoryGeneratorService.generateLinearStory briefing sceneCount resp = .ok story →
      ReachableSession (mkSession briefing sceneCount fresh story)
  | refined (s : StorySession) (prompt : String) (resp : ChatContent) (v : JsValue)
      (warned : Bool) :
      ReachableSession s → 5 ≤ prompt.length →
      StoryGeneratorService.refineStory s.currentStoryState prompt resp = .ok (v, warned) →
      ReachableSession { s with currentStoryState := v }
  | finalized (s : StorySession) (url : String) (cResp : Option String)
      (imageOracle : Nat → Option String) (v : JsValue) :
      ReachableSession s →
      FinalStoryService.generateFinalImages s.currentStoryState url cResp imageOracle = .ok v →
      ReachableSession { s with currentStoryState := v }

/-- The number of image-generation calls step 2 of the final-illustration
stage issues on a story state: one per element of the array it maps over. -/
def finalBatchSize : JsValue → Nat
  | .arr xs => xs.length
  | _ => 0

/-! ## JSON.parse

A recursive-descent embedding of `JSON.parse`, total by structural fuel.
Restrictions against full ECMA JSON, none of which is reachable from data
this system serializes: numbers are integers (no fraction/exponent part —
the only numbers in the pipeline are scene ids), surrogate-pair `\u` escapes
are not combined, and leading zeros are tolerated rather than rejected.
Duplicate object keys overwrite (last wins), as in JavaScript. -/

/-- JSON whitespace. -/
def isJsonWs (c : Char) : Bool := c == ' ' || c == '\n' || c == '\t' || c == '\r'

/-- Drop leading JSON whitespace. -/
def skipJsonWs (cs : List Char) : List Char := cs.dropWhile isJsonWs

/-- Decimal digit? -/
def isDigitChar (c : Char) : Bool := 48 ≤ c.toNat && c.toNat ≤ 57

/-- Consume a run of decimal digits into an accumulator. -/
def parseDigits : List Char → Nat → Nat × List Char
  | c :: cs, acc => if isDigitChar c then parseDigits cs (acc * 10 + (c.toNat - 48)) else (acc, c :: cs)
  | [], acc => (acc, [])

/-- Value of one hexadecimal digit. -/
def hexVal (c : Char) : Option Nat :=
  if 48 ≤ c.toNat && c.toNat ≤ 57 then some (c.toNat - 48)
  else if 97 ≤ c.toNat && c.toNat ≤ 102 then some (c.toNat - 87)
  else if 65 ≤ c.toNat && c.toNat ≤ 70 then some (c.toNat - 55)
  else none

/-- Prepend a decoded character to a string-body parse result. -/
def consCh (c : Char) (r : Option (List Char × List Char)) : Option (List Char × List Char) :=
  r.map (fun p => (c :: p.1, p.2))

/-- The four hex digits of a `\u` escape, decoded. -/
def hex4 (a b c d : Char) : Option Nat :=
  (hexVal a).bind (fun va => (hexVal b).bind (fun vb =>
    (hexVal c).bind (fun vc => (hexVal d).map (fun vd =>
      ((va * 16 + vb) * 16 + vc) * 16 + vd))))

/-- The body of a string literal, after the opening quote: escape sequences
are decoded, raw control characters are rejected, and the closing quote ends
the literal.  Structural fuel; each step consumes at least one character. -/
def strBody : Nat → List Char → Option (List Char × List Char)
  | 0, _ => none
  | f + 1, cs =>
    match cs with
    | [] => none
    | c :: rest =>
      if c = '"' then some ([], rest)
      else if c = '\\' then
        match rest with
        | [] => none
        | e :: rest2 =>
          if e = '"' then consCh '"' (strBody f rest2)
          else if e = '\\' then consCh '\\' (strBody f rest2)
          else if e = '/' then consCh '/' (strBody f rest2)
          else if e = 'n' then consCh '\n' (strBody f rest2)
          else if e = 't' then consCh '\t' (strBody f rest2)
          else if e = 'r' then consCh '\r' (strBody f rest2)
          else if e = 'b' then consCh (Char.ofNat 8) (strBody f rest2)
          else if e = 'f' then consCh (Char.ofNat 12) (strBody f rest2)
          else if e = 'u' then
            match rest2 with
            | h1 :: h2 :: h3 :: h4 :: r =>
              (hex4 h1 h2 h3 h4).elim none
                (fun code => consCh (Char.ofNat code) (strBody f r))
            | _ => none
          else none
      else if c.toNat < 32 then none
      else consCh c (strBody f rest)

/-- A full string literal after its opening quote. -/
def parseStringLit (cs : List Char) : Option (String × List Char) :=
  (strBody (cs.length + 1) cs).map (fun p => (String.mk p.1, p.2))

/-- An integer literal: optional minus sign, then a digit run. -/
def parseIntLit : List Char → Option (Int × List Char)
  | [] => none
  | c :: cs =>
    if c = '-' then
      match cs with
      | [] => none
      | c2 :: _ =>
        if isDigitChar c2 then
          let p := parseDigits cs 0
          some (-(p.1 : Int), p.2)
        else none
    else if isDigitChar c then
      let p := parseDigits (c :: cs) 0
      some ((p.1 : Int), p.2)
    else none

mutual
/-- One JSON value (fuel-structural), dispatching on the first
non-whitespace character; anything that does not open a literal, array or
object goes to the number rule. -/
def parseVal : Nat → List Char → Option (JsValue × List Char)
  | 0, _ => none
  | f + 1, cs =>
    match skipJsonWs cs with
    | [] => none
    | c :: r =>
      if c = 'n' then
        match r with
        | 'u' :: 'l' :: 'l' :: r2 => some (.null, r2)
        | _ => none
      else if c = 't' then
        match r with
        | 'r' :: 'u' :: 'e' :: r2 => some (.bool true, r2)
        | _ => none
      else if c = 'f' then
        match r with
        | 'a' :: 'l' :: 's' :: 'e' :: r2 => some (.bool false, r2)
        | _ => none
      else if c = '"' then (parseStringLit r).map (fun p => (.str p.1, p.2))
      else if c = '[' then
        match skipJsonWs r with
        | ']' :: r2 => some (.arr [], r2)
        | r2 =>
          match parseVal f r2 with
          | none => none
          | some (x, r3) =>
            match parseItems f r3 with
            | none => none
            | some (xs, r4) => some (.arr (x :: xs), r4)
      else if c = '{' then
        match skipJsonWs r with
        | '}' :: r2 => some (.obj [], r2)
        | r2 =>
          match parseMember f r2 with
          | none => none
          | some (kv, r3) =>
            match parseMembers f r3 (setField [] kv.1 kv.2) with
            | none => none
            | some (fs, r4) => some (.obj fs, r4)
      else (parseIntLit (c :: r)).map (fun p => (.num p.1, p.2))

/-- The elements after the first in a non-empty array: a `,`-prefixed value
each, closed by `]`. -/
def parseItems : Nat → List Char → Option (List JsValue × List Char)
  | 0, _ => none
  | f + 1, cs =>
    match skipJsonWs cs with
    | ']' :: r => some ([], r)
    | ',' :: r =>
      (match parseVal f r with
        | none => none
        | some (x, r1) =>
          match parseItems f r1 with
          | none => none
          | some (xs, r2) => some (x :: xs, r2))
    | _ => none

/-- One `"key": value` member. -/
def parseMember : Nat → List Char → Option ((String × JsValue) × List Char)
  | 0, _ => none
  | f + 1, cs =>
    match skipJsonWs cs with
    | '"' :: r =>
      (match parseStringLit r with
        | none => none
        | some (k, r1) =>
          match skipJsonWs r1 with
          | ':' :: r2 =>
            (match parseVal f r2 with
              | none => none
              | some (v, r3) => some ((k, v), r3))
          | _ => none)
    | _ => none

/-- The members after the first in a non-empty object, accumulated with
last-wins key semantics, closed by `}`. -/
def parseMembers : Nat → List Char → List (String × JsValue) →
    Option (List (String × JsValue) × List Char)
  | 0, _, _ => none
  | f + 1, cs, acc =>
    match skipJsonWs cs with
    | '}' :: r => some (acc, r)
    | ',' :: r =>
      (match parseMember f r with
        | none => none
        | some (kv, r1) => parseMembers f r1 (setField acc kv.1 kv.2))
    | _ => none
end

/-- `JSON.parse`: parse one value and insist nothing but whitespace follows.
Every nesting or iteration level of the grammar consumes at least one input
character per fuel unit, so this fuel never binds. -/
def parseJson (s : String) : Option JsValue :=
  match parseVal (2 * s.length + 16) s.toList with
  | some (v, rest) => if (skipJsonWs rest).isEmpty then some v else none
  | none => none

/-- The `prepare` of the `currentStoryState` column: a falsy value is stored
as SQL null, anything else as its `JSON.stringify`. -/
def prepare (value : JsValue) : Option String :=
  if truthy value then some (stringify value) else none

/-- The `consume` of the `currentStoryState` column: a falsy column value
(SQL null or the empty string) comes back as `null`, anything else through
`JSON.parse` (whose `SyntaxError` on corrupt data propagates). -/
def consume (value : Option String) : Except String JsValue :=
  match value with
  | none => .ok .null
  | some s =>
    if s == "" then .ok .null
    else
      match parseJson s with
      | some v => .ok v
      | none => .error "SyntaxError: JSON.parse"

/-! ## Helper lemmas -/

/-- A property access only throws on `null` and `undefined`. -/
theorem getProp_error_cases (v : JsValue) (k : String) (e : Unit)
    (h : getProp v k = .error e) : v = .null ∨ v = .undefined := by
  cases v <;> simp [getProp] at h <;> simp

/-- `missingSceneImage` always throws. -/
theorem missingSceneImage_ne_ok (scene : JsValue) (out : List JsValue) :
    FinalStoryService.missingSceneImage scene ≠ .ok out := by
  unfold FinalStoryService.missingSceneImage
  cases h : getProp scene "id" <;> simp

/-- `missingUrlError` always throws. -/
theorem missingUrlError_ne_ok (style : JsValue) (out : List JsValue) :
    ArtStyleService.missingUrlError style ≠ .ok out := by
  unfold ArtStyleService.missingUrlError
  cases h : getProp style "name" <;> simp

/-- Step 2 of the final-illustration stage builds exactly one prompt per
scene (when prompt building does not throw). -/
theorem buildFinalPrompts_length (cp : String) :
    ∀ (xs : List JsValue) (ps : List String),
      FinalStoryService.buildFinalPrompts cp xs = .ok ps → ps.length = xs.length
  | [], ps => by intro h; simp [FinalStoryService.buildFinalPrompts] at h; simp [← h]
  | x :: xs, ps => by
    intro h
    simp only [FinalStoryService.buildFinalPrompts] at h
    cases h1 : FinalStoryService.buildFinalPrompt cp x with
    | error e => simp [h1] at h
    | ok p =>
      simp only [h1] at h
      cases h2 : FinalStoryService.buildFinalPrompts cp xs with
      | error e => simp [h2] at h
      | ok ps2 =>
        simp only [h2] at h
        cases h
        simpa using buildFinalPrompts_length cp xs ps2 h2

/-- Step 2 of the style stage builds exactly one prompt per style (when
prompt building does not throw). -/
theorem buildStyleImagePrompts_length (fs : JsValue) :
    ∀ (styles : List JsValue) (ps : List String),
      ArtStyleService.buildStyleImagePrompts fs styles = .ok ps → ps.length = styles.length
  | [], ps => by intro h; simp [ArtStyleService.buildStyleImagePrompts] at h; simp [← h]
  | x :: xs, ps => by
    intro h
    simp only [ArtStyleService.buildStyleImagePrompts] at h
    cases h1 : ArtStyleService.buildStyleImagePrompt fs x with
    | error e => simp [h1] at h
    | ok p =>
      simp only [h1] at h
      cases h2 : ArtStyleService.buildStyleImagePrompts fs xs with
      | error e => simp [h2] at h
      | ok ps2 =>
        simp only [h2] at h
        cases h
        simpa using buildStyleImagePrompts_length fs xs ps2 h2

/-- The positional contract of the final join: on success there is one output
scene per input scene, and the i-th output is the i-th input overwritten with
the (non-falsy) URL of the i-th image result. -/
theorem combineFinalScenes_spec :
    ∀ (xs : List JsValue) (rs : List (Option String)) (out : List JsValue),
      FinalStoryService.combineFinalScenes xs rs = .ok out →
      out.length = xs.length ∧
      ∀ i, i < xs.length →
        ∃ scene u, xs[i]? = some scene ∧ rs[i]? = some (some u) ∧ u ≠ "" ∧
          out[i]? = some (FinalStoryService.finalizeScene scene u)
  | [], rs, out => by
    intro h
    simp only [FinalStoryService.combineFinalScenes] at h
    cases h
    exact ⟨rfl, by intro i hi; simp at hi⟩
  | x :: xs, [], out => by
    intro h
    simp [FinalStoryService.combineFinalScenes] at h
  | x :: xs, none :: rs, out => by
    intro h
    simp only [FinalStoryService.combineFinalScenes] at h
    exact absurd h (missingSceneImage_ne_ok x out)
  | x :: xs, some u :: rs, out => by
    intro h
    simp only [FinalStoryService.combineFinalScenes] at h
    by_cases hu : u == ""
    · rw [if_pos hu] at h
      exact absurd h (missingSceneImage_ne_ok x out)
    · rw [if_neg hu] at h
      cases h2 : FinalStoryService.combineFinalScenes xs rs with
      | error e => simp [h2] at h
      | ok rest =>
        simp only [h2] at h
        cases h
        obtain ⟨hlen, hspec⟩ := combineFinalScenes_spec xs rs rest h2
        refine ⟨by simpa using hlen, ?_⟩
        intro i hi
        cases i with
        | zero => exact ⟨x, u, by simp, by simp, by simpa using hu, by simp⟩
        | succ j =>
          obtain ⟨sc, u2, hx, hr, hu2, ho⟩ := hspec j (by simpa using hi)
          exact ⟨sc, u2, by simpa using hx, by simpa using hr, hu2, by simpa using ho⟩

/-- The positional contract of the style join (same shape as the final join). -/
theorem combineSuggestions_spec :
    ∀ (styles : List JsValue) (rs : List (Option String)) (out : List JsValue),
      ArtStyleService.combineSuggestions styles rs = .ok out →
      out.length = styles.length ∧
      ∀ i, i < styles.length →
        ∃ style u, styles[i]? = some style ∧ rs[i]? = some (some u) ∧ u ≠ "" ∧
          out[i]? = some (ArtStyleService.spreadWithImageUrl style u)
  | [], rs, out => by
    intro h
    simp only [ArtStyleService.combineSuggestions] at h
    cases h
    exact ⟨rfl, by intro i hi; simp at hi⟩
  | x :: xs, [], out => by
    intro h
    simp [ArtStyleService.combineSuggestions] at h
  | x :: xs, none :: rs, out => by
    intro h
    simp only [ArtStyleService.combineSuggestions] at h
    exact absurd h (missingUrlError_ne_ok x out)
  | x :: xs, some u :: rs, out => by
    intro h
    simp only [ArtStyleService.combineSuggestions] at h
    by_cases hu : u == ""
    · rw [if_pos hu] at h
      exact absurd h (missingUrlError_ne_ok x out)
    · rw [if_neg hu] at h
      cases h2 : ArtStyleService.combineSuggestions xs rs with
      | error e => simp [h2] at h
      | ok rest =>
        simp only [h2] at h
        cases h
        obtain ⟨hlen, hspec⟩ := combineSuggestions_spec xs rs rest h2
        refine ⟨by simpa using hlen, ?_⟩
        intro i hi
        cases i with
        | zero => exact ⟨x, u, by simp, by simp, by simpa using hu, by simp⟩
        | succ j =>
          obtain ⟨st, u2, hx, hr, hu2, ho⟩ := hspec j (by simpa using hi)
          exact ⟨st, u2, by simpa using hx, by simpa using hr, hu2, by simpa using ho⟩

/-! ## Claim theorems -/

/-- C1: for every briefing of length at least 10 and every sceneCount n with
2 ≤ n ≤ 10, `generateLinearStory` either returns a scene list of exactly n
scenes or fails with the generation error; it never returns a list whose
length differs from n. -/
theorem generateLinearStory_exact_count_or_error (briefing : String) (n : Nat)
    (resp : ChatContent) (hb : 10 ≤ briefing.length) (h2 : 2 ≤ n) (h10 : n ≤ 10) :
    (∃ story, StoryGeneratorService.generateLinearStory briefing n resp = .ok story ∧
      story.length = n) ∨
    StoryGeneratorService.generateLinearStory briefing n resp =
      .error StoryGeneratorService.generationFailureMsg := by
  unfold StoryGeneratorService.generateLinearStory
  cases resp with
  | empty => exact .inr rfl
  | unparseable raw => exact .inr rfl
  | parsed v =>
    cases hp : getProp v "story" with
    | error e => exact .inr (by simp [hp])
    | ok sa =>
      cases sa with
      | arr xs =>
        by_cases hl : xs.length = n
        · exact .inl ⟨xs, by simp [hp, hl], hl⟩
        · exact .inr (by simp [hp, hl])
      | undefined => exact .inr (by simp [hp])
      | null => exact .inr (by simp [hp])
      | bool b => exact .inr (by simp [hp])
      | num m => exact .inr (by simp [hp])
      | str s => exact .inr (by simp [hp])
      | obj fs => exact .inr (by simp [hp])

/-- Witness for C1 at a concrete briefing, count and response. -/
theorem generateLinearStory_exact_count_or_error_witness :
    (∃ story, StoryGeneratorService.generateLinearStory "0123456789" 3
        (.parsed (.obj [("story", .arr [.num 1, .num 2, .num 3])])) = .ok story ∧
      story.length = 3) ∨
    StoryGeneratorService.generateLinearStory "0123456789" 3
        (.parsed (.obj [("story", .arr [.num 1, .num 2, .num 3])])) =
      .error StoryGeneratorService.generationFailureMsg :=
  generateLinearStory_exact_count_or_error "0123456789" 3
    (.parsed (.obj [("story", .arr [.num 1, .num 2, .num 3])]))
    (by decide) (by decide) (by decide)

/-- C5: on every request that runs a stage over an existing session (refine
story, finalize illustrations), any failure leaves the database exactly as it
was: the single persistence write happens strictly after the service call. -/
theorem stage_failure_leaves_db_unchanged :
    (∀ db paramsId prompt resp e,
      (StoryGeneratorController.update db paramsId prompt resp).2 = .error e →
      (StoryGeneratorController.update db paramsId prompt resp).1 = db) ∧
    (∀ db paramsSessionId url urlOk cResp oracle e,
      (FinalStoriesController.store db paramsSessionId url urlOk cResp oracle).2 = .error e →
      (FinalStoriesController.store db paramsSessionId url urlOk cResp oracle).1 = db) := by
  constructor
  · intro db paramsId prompt resp e h
    unfold StoryGeneratorController.update at h ⊢
    cases hf : dbFind db paramsId with
    | none => simp [hf]
    | some session =>
      simp only [hf] at h ⊢
      by_cases hp : prompt.length < 5
      · simp [hp]
      · simp only [if_neg hp] at h ⊢
        cases hr : StoryGeneratorService.refineStory session.currentStoryState prompt resp with
        | error e2 => simp [hr]
        | ok val =>
          obtain ⟨refined, warned⟩ := val
          simp [hr] at h
  · intro db paramsSessionId url urlOk cResp oracle e h
    unfold FinalStoriesController.store at h ⊢
    cases hf : dbFind db paramsSessionId with
    | none => simp [hf]
    | some session =>
      simp only [hf] at h ⊢
      cases urlOk with
      | false => simp
      | true =>
        simp only [Bool.not_true, Bool.false_eq_true, if_false] at h ⊢
        cases hr : FinalStoryService.generateFinalImages session.currentStoryState
            url cResp oracle with
        | error e2 => simp [hr]
        | ok finalized => simp [hr] at h

/-- Witness for C5: a refine and a finalize request on an unknown session
both fail and leave the (empty) database unchanged. -/
theorem stage_failure_leaves_db_unchanged_witness :
    (StoryGeneratorController.update [] "x" "hello" .empty).1 = [] ∧
    (FinalStoriesController.store [] "x" "http://r" true none (fun _ => none)).1 = [] :=
  ⟨stage_failure_leaves_db_unchanged.1 [] "x" "hello" .empty notFoundMsg rfl,
    stage_failure_leaves_db_unchanged.2 [] "x" "http://r" true none (fun _ => none)
      notFoundMsg rfl⟩

/-- C9: a successful refine or finalize request changes only the stored
story state of the addressed session — the replacement row keeps the uuid,
initial briefing and scene count of the found row verbatim — and the create
flow assigns the uuid on the attribute object before the row is inserted. -/
theorem success_updates_only_story_state :
    (∀ db paramsId prompt resp db2 r,
      StoryGeneratorController.update db paramsId prompt resp = (db2, .ok r) →
      ∃ session refined warned,
        dbFind db paramsId = some session ∧
        StoryGeneratorService.refineStory session.currentStoryState prompt resp =
          .ok (refined, warned) ∧
        db2 = dbSave db paramsId
          ⟨session.uuid, session.initialBriefing, session.sceneCount, refined⟩) ∧
    (∀ db paramsSessionId url urlOk cResp oracle db2 r,
      FinalStoriesController.store db paramsSessionId url urlOk cResp oracle = (db2, .ok r) →
      ∃ session finalized,
        dbFind db paramsSessionId = some session ∧
        FinalStoryService.generateFinalImages session.currentStoryState url cResp oracle =
          .ok finalized ∧
        db2 = dbSave db paramsSessionId
          ⟨session.uuid, session.initialBriefing, session.sceneCount, finalized⟩ ∧
        r = ⟨session.uuid, session.initialBriefing, session.sceneCount, finalized⟩) ∧
    (∀ db briefing n fresh resp db2 r,
      StoryGeneratorController.store db briefing n fresh resp = (db2, .ok r) →
      ∃ story,
        StoryGeneratorService.generateLinearStory briefing n resp = .ok story ∧
        db2 = db ++ [mkSession briefing n fresh story] ∧
        (mkSession briefing n fresh story).uuid = some fresh) := by
  refine ⟨?_, ?_, ?_⟩
  · intro db paramsId prompt resp db2 r h
    unfold StoryGeneratorController.update at h
    cases hf : dbFind db paramsId with
    | none => simp [hf] at h
    | some session =>
      simp only [hf] at h
      by_cases hp : prompt.length < 5
      · simp [hp] at h
      · simp only [if_neg hp] at h
        cases hr : StoryGeneratorService.refineStory session.currentStoryState prompt resp with
        | error e2 => simp [hr] at h
        | ok val =>
          obtain ⟨refined, warned⟩ := val
          simp only [hr, Prod.mk.injEq] at h
          exact ⟨session, refined, warned, rfl, hr, by rw [← h.1]⟩
  · intro db paramsSessionId url urlOk cResp oracle db2 r h
    unfold FinalStoriesController.store at h
    cases hf : dbFind db paramsSessionId with
    | none => simp [hf] at h
    | some session =>
      simp only [hf] at h
      cases urlOk with
      | false => simp at h
      | true =>
        simp only [Bool.not_true, Bool.false_eq_true, if_false] at h
        cases hr : FinalStoryService.generateFinalImages session.currentStoryState
            url cResp oracle with
        | error e2 => simp [hr] at h
        | ok finalized =>
          simp only [hr, Prod.mk.injEq, Except.ok.injEq] at h
          exact ⟨session, finalized, rfl, hr, by rw [← h.1], by rw [← h.2]⟩
  · intro db briefing n fresh resp db2 r h
    unfold StoryGeneratorController.store at h
    by_cases hv : briefing.length < 10 || n < 2 || 10 < n
    · simp [hv] at h
    · simp only [hv, Bool.false_eq_true, if_false] at h
      cases hg : StoryGeneratorService.generateLinearStory briefing n resp with
      | error e2 => simp [hg] at h
      | ok story =>
        simp only [hg, Prod.mk.injEq] at h
        exact ⟨story, rfl, by rw [← h.1], rfl⟩

/-- Witness for C9 on a concrete one-row database: a successful refine, a
successful finalize and a successful create, instantiating all three parts. -/
theorem success_updates_only_story_state_witness :
    (∃ session refined warned,
      dbFind [⟨some "u1", "brief12345", 2, .arr [.num 1, .num 2]⟩] "u1" = some session ∧
      StoryGeneratorService.refineStory session.currentStoryState "12345"
        (.parsed (.obj [("story", .arr [.num 3, .num 4])])) = .ok (refined, warned) ∧
      (StoryGeneratorController.update [⟨some "u1", "brief12345", 2, .arr [.num 1, .num 2]⟩]
          "u1" "12345" (.parsed (.obj [("story", .arr [.num 3, .num 4])]))).1 =
        dbSave [⟨some "u1", "brief12345", 2, .arr [.num 1, .num 2]⟩] "u1"
          ⟨session.uuid, session.initialBriefing, session.sceneCount, refined⟩) ∧
    (∃ story,
      StoryGeneratorService.generateLinearStory "0123456789" 2
        (.parsed (.obj [("story", .arr [.num 1, .num 2])])) = .ok story ∧
      (StoryGeneratorController.store [] "0123456789" 2 "u9"
          (.parsed (.obj [("story", .arr [.num 1, .num 2])]))).1 =
        [] ++ [mkSession "0123456789" 2 "u9" story] ∧
      (mkSession "0123456789" 2 "u9" story).uuid = some "u9") := by
  constructor
  · obtain ⟨session, refined, warned, h1, h2, h3⟩ :=
      success_updates_only_story_state.1
        [⟨some "u1", "brief12345", 2, .arr [.num 1, .num 2]⟩] "u1" "12345"
        (.parsed (.obj [("story", .arr [.num 3, .num 4])])) _ _ rfl
    exact ⟨session, refined, warned, h1, h2, h3⟩
  · obtain ⟨story, h1, h2, h3⟩ :=
      success_updates_only_story_state.2.2 [] "0123456789" 2 "u9"
        (.parsed (.obj [("story", .arr [.num 1, .num 2])])) _ _ rfl
    exact ⟨story, h1, h2, h3⟩

/-- The typed effect of the final join on a well-formed scene. -/
def finalizeTyped (s : StoryScene) (u : String) : StoryScene :=
  { s with characterImagePrompt := u, backgroundPrompt := "" }

/-- On a well-formed scene, the spread of the final join is exactly the
field update (`characterImagePrompt` := URL, `backgroundPrompt` := ""). -/
theorem finalizeScene_encode (s : StoryScene) (u : String) :
    FinalStoryService.finalizeScene (sceneToJs s) u = sceneToJs (finalizeTyped s u) := rfl

/-- The per-scene prompt a well-formed scene produces. -/
def finalScenePrompt (cp : String) (s : StoryScene) : String :=
  cp ++ ". The scene is: \"" ++ s.narrator ++ "\". The character is " ++ s.character ++
    " and they are saying \"" ++ s.dialogue ++ "\"."

/-- Template interpolation of a string value is the string itself. -/
theorem jsDisplay_str (x : String) : jsDisplay (.str x) = x := by simp [jsDisplay]

/-- Prompt building never throws on a well-formed scene. -/
theorem buildFinalPrompt_encode (cp : String) (s : StoryScene) :
    FinalStoryService.buildFinalPrompt cp (sceneToJs s) = .ok (finalScenePrompt cp s) := by
  have h1 : getProp (sceneToJs s) "narrator" = .ok (.str s.narrator) := rfl
  have h2 : getProp (sceneToJs s) "character" = .ok (.str s.character) := rfl
  have h3 : getProp (sceneToJs s) "dialogue" = .ok (.str s.dialogue) := rfl
  simp [FinalStoryService.buildFinalPrompt, h1, h2, h3, jsDisplay_str, finalScenePrompt]

/-- Prompt building on a well-formed scene list: one prompt per scene. -/
theorem buildFinalPrompts_encode (cp : String) :
    ∀ l : List StoryScene,
      FinalStoryService.buildFinalPrompts cp (l.map sceneToJs) =
        .ok (l.map (finalScenePrompt cp))
  | [] => rfl
  | s :: l => by
    simp only [List.map_cons, FinalStoryService.buildFinalPrompts, buildFinalPrompt_encode,
      buildFinalPrompts_encode cp l]

/-- The final join on a well-formed scene list produces a well-formed scene
list: the i-th output scene is the i-th input scene with its image-prompt
field overwritten by the i-th (non-falsy) URL. -/
theorem combineFinalScenes_encode :
    ∀ (l : List StoryScene) (rs : List (Option String)) (out : List JsValue),
      FinalStoryService.combineFinalScenes (l.map sceneToJs) rs = .ok out →
      ∃ lf : List StoryScene, out = lf.map sceneToJs ∧ lf.length = l.length ∧
        ∀ i, i < l.length →
          ∃ s u, l[i]? = some s ∧ rs[i]? = some (some u) ∧ u ≠ "" ∧
            lf[i]? = some (finalizeTyped s u)
  | [], rs, out => by
    intro h
    simp only [List.map_nil, FinalStoryService.combineFinalScenes] at h
    cases h
    exact ⟨[], rfl, rfl, by intro i hi; simp at hi⟩
  | s :: l, [], out => by
    intro h
    simp [FinalStoryService.combineFinalScenes] at h
  | s :: l, none :: rs, out => by
    intro h
    simp only [List.map_cons, FinalStoryService.combineFinalScenes] at h
    exact absurd h (missingSceneImage_ne_ok (sceneToJs s) out)
  | s :: l, some u :: rs, out => by
    intro h
    simp only [List.map_cons, FinalStoryService.combineFinalScenes] at h
    by_cases hu : u == ""
    · rw [if_pos hu] at h
      exact absurd h (missingSceneImage_ne_ok (sceneToJs s) out)
    · rw [if_neg hu] at h
      cases h2 : FinalStoryService.combineFinalScenes (l.map sceneToJs) rs with
      | error e => simp [h2] at h
      | ok rest =>
        simp only [h2] at h
        cases h
        obtain ⟨lf, hout, hlen, hspec⟩ := combineFinalScenes_encode l rs rest h2
        refine ⟨finalizeTyped s u :: lf, by simp [hout, finalizeScene_encode], by simp [hlen], ?_⟩
        intro i hi
        cases i with
        | zero => exact ⟨s, u, by simp, by simp, by simpa using hu, by simp⟩
        | succ j =>
          obtain ⟨s2, u2, hl, hr, hu2, hlf⟩ := hspec j (by simpa using hi)
          exact ⟨s2, u2, by simpa using hl, by simpa using hr, hu2, by simpa using hlf⟩

/-- C2: when the final-illustration stage succeeds on a non-empty well-formed
scene list, the output is a scene list of the same length whose i-th scene
keeps the id, narrator, character and dialogue of the i-th input scene, has
its characterImagePrompt replaced by the URL generated for that scene, and
has an empty backgroundPrompt. -/
theorem generateFinalImages_success_shape (scenes : List StoryScene) (hne : scenes ≠ [])
    (url : String) (cResp : Option String) (oracle : Nat → Option String) (out : JsValue)
    (h : FinalStoryService.generateFinalImages (sceneListToJs scenes) url cResp oracle = .ok out) :
    ∃ finalized : List StoryScene,
      out = sceneListToJs finalized ∧
      finalized.length = scenes.length ∧
      ∀ i, i < scenes.length →
        ∃ s s2 u, scenes[i]? = some s ∧ finalized[i]? = some s2 ∧ oracle i = some u ∧
          u ≠ "" ∧ s2.id = s.id ∧ s2.narrator = s.narrator ∧ s2.character = s.character ∧
          s2.dialogue = s.dialogue ∧ s2.characterImagePrompt = u ∧ s2.backgroundPrompt = "" := by
  unfold FinalStoryService.generateFinalImages at h
  cases hc : FinalStoryService.createConsistencyPrompt url cResp with
  | error e => simp [hc] at h
  | ok cp =>
    simp only [hc, sceneListToJs, buildFinalPrompts_encode] at h
    cases h2 : FinalStoryService.combineFinalScenes (scenes.map sceneToJs)
        ((List.range (scenes.map (finalScenePrompt cp)).length).map oracle) with
    | error e => rw [h2] at h; cases h
    | ok fl =>
      rw [h2] at h
      cases h
      obtain ⟨lf, hout, hlen, hspec⟩ := combineFinalScenes_encode scenes _ fl h2
      refine ⟨lf, by rw [hout]; rfl, hlen, ?_⟩
      intro i hi
      obtain ⟨s, u, hl, hr, hu, hlf⟩ := hspec i hi
      refine ⟨s, finalizeTyped s u, u, hl, hlf, ?_, hu, rfl, rfl, rfl, rfl, rfl, rfl⟩
      have hr2 : ((List.range (scenes.map (finalScenePrompt cp)).length).map oracle)[i]? =
          some (oracle i) := by
        simp [List.getElem?_map, List.getElem?_range, hi]
      rw [hr2] at hr
      exact (Option.some.injEq _ _).mp hr

/-- Witness for C2 at a concrete one-scene story. -/
theorem generateFinalImages_success_shape_witness :
    ∃ finalized : List StoryScene,
      JsValue.arr [.obj [("id", .num 7), ("narrator", .str "n"), ("character", .str "c"),
        ("characterImagePrompt", .str "http://img"), ("dialogue", .str "d"),
        ("backgroundPrompt", .str "")]] = sceneListToJs finalized ∧
      finalized.length = ([⟨7, "n", "c", "ci", "d", "bg"⟩] : List StoryScene).length ∧
      ∀ i, i < ([⟨7, "n", "c", "ci", "d", "bg"⟩] : List StoryScene).length →
        ∃ s s2 u, ([⟨7, "n", "c", "ci", "d", "bg"⟩] : List StoryScene)[i]? = some s ∧
          finalized[i]? = some s2 ∧ (fun _ => some "http://img") i = some u ∧
          u ≠ "" ∧ s2.id = s.id ∧ s2.narrator = s.narrator ∧ s2.character = s.character ∧
          s2.dialogue = s.dialogue ∧ s2.characterImagePrompt = u ∧ s2.backgroundPrompt = "" :=
  generateFinalImages_success_shape [⟨7, "n", "c", "ci", "d", "bg"⟩] (by simp)
    "http://ref" (some "style desc") (fun _ => some "http://img") _ rfl

/-- C10: the final-illustration stage performs no emptiness check: on the
empty scene list it still derives the consistency prompt, issues zero image
calls, and returns the empty list; the finalize controller then persists the
empty list as the story of the session. -/
theorem finalize_empty_story_spec :
    (∀ url cp oracle, cp ≠ "" →
      FinalStoryService.generateFinalImages (.arr []) url (some cp) oracle = .ok (.arr []) ∧
      finalBatchSize (.arr []) = 0) ∧
    (∀ db paramsSessionId url cp oracle session,
      dbFind db paramsSessionId = some session →
      session.currentStoryState = .arr [] → cp ≠ "" →
      FinalStoriesController.store db paramsSessionId url true (some cp) oracle =
        (dbSave db paramsSessionId
            ⟨session.uuid, session.initialBriefing, session.sceneCount, .arr []⟩,
          .ok ⟨session.uuid, session.initialBriefing, session.sceneCount, .arr []⟩)) := by
  have hmain : ∀ (url cp : String) (oracle : Nat → Option String), cp ≠ "" →
      FinalStoryService.generateFinalImages (.arr []) url (some cp) oracle = .ok (.arr []) := by
    intro url cp oracle hcp
    have hcp2 : (cp == "") = false := by simpa using hcp
    simp [FinalStoryService.generateFinalImages, FinalStoryService.createConsistencyPrompt,
      FinalStoryService.buildFinalPrompts, FinalStoryService.combineFinalScenes, hcp2]
  constructor
  · intro url cp oracle hcp
    exact ⟨hmain url cp oracle hcp, rfl⟩
  · intro db paramsSessionId url cp oracle session hf hempty hcp
    unfold FinalStoriesController.store
    rw [hf]
    simp only [Bool.not_true, Bool.false_eq_true, if_false]
    rw [hempty, hmain url cp oracle hcp]

/-- Witness for C10 on a concrete empty-story session. -/
theorem finalize_empty_story_spec_witness :
    (FinalStoryService.generateFinalImages (.arr []) "http://r" (some "style") (fun _ => none) =
        .ok (.arr []) ∧
      finalBatchSize (.arr []) = 0) ∧
    FinalStoriesController.store [⟨some "u1", "brief12345", 3, .arr []⟩] "u1" "http://r" true
        (some "style") (fun _ => none) =
      (dbSave [⟨some "u1", "brief12345", 3, .arr []⟩] "u1" ⟨some "u1", "brief12345", 3, .arr []⟩,
        .ok ⟨some "u1", "brief12345", 3, .arr []⟩) :=
  ⟨finalize_empty_story_spec.1 "http://r" "style" (fun _ => none) (by decide),
    finalize_empty_story_spec.2 [⟨some "u1", "brief12345", 3, .arr []⟩] "u1" "http://r" "style"
      (fun _ => none) ⟨some "u1", "brief12345", 3, .arr []⟩ rfl rfl (by decide)⟩

/-- The style text stage only succeeds with exactly three (unvalidated)
style values. -/
theorem generateStylePrompts_three (firstScene : JsValue) (resp : ChatContent)
    (styles : List JsValue)
    (h : ArtStyleService.generateStylePrompts firstScene resp = .ok styles) :
    styles.length = 3 := by
  unfold ArtStyleService.generateStylePrompts at h
  cases hb : ArtStyleService.buildPrompt firstScene with
  | error e => simp [hb] at h
  | ok p =>
    simp only [hb] at h
    cases resp with
    | empty => simp at h
    | unparseable raw => simp at h
    | parsed v =>
      cases hp : getProp v "artStyles" with
      | error e => simp [hp] at h
      | ok styles2 =>
        simp only [hp] at h
        cases styles2 with
        | arr xs =>
          by_cases hl : xs.length = 3
          · simp only [hl, if_true] at h
            cases h
            exact hl
          · simp [hl] at h
        | undefined => simp at h
        | null => simp at h
        | bool b => simp at h
        | num m => simp at h
        | str s => simp at h
        | obj fs => simp at h

/-- Decomposition of a successful `suggestStyles` call: three validated style
values and a positional join of each with the (non-falsy) URL of the image
call of the same index. -/
theorem suggestStyles_ok_decomp (firstScene : JsValue) (resp : ChatContent)
    (oracle : Nat → Option String) (out : List JsValue)
    (h : ArtStyleService.suggestStyles firstScene resp oracle = .ok out) :
    ∃ styles, ArtStyleService.generateStylePrompts firstScene resp = .ok styles ∧
      styles.length = 3 ∧ out.length = styles.length ∧
      ∀ i, i < styles.length →
        ∃ style u, styles[i]? = some style ∧ oracle i = some u ∧ u ≠ "" ∧
          out[i]? = some (ArtStyleService.spreadWithImageUrl style u) := by
  unfold ArtStyleService.suggestStyles at h
  cases hg : ArtStyleService.generateStylePrompts firstScene resp with
  | error e => simp [hg] at h
  | ok styles =>
    simp only [hg] at h
    cases hbp : ArtStyleService.buildStyleImagePrompts firstScene styles with
    | error e => simp [hbp] at h
    | ok ps =>
      simp only [hbp] at h
      have hpl : ps.length = styles.length := buildStyleImagePrompts_length firstScene styles ps hbp
      obtain ⟨hlen, hspec⟩ := combineSuggestions_spec styles ((List.range ps.length).map oracle) out h
      refine ⟨styles, rfl, generateStylePrompts_three firstScene resp styles hg, hlen, ?_⟩
      intro i hi
      obtain ⟨style, u, hs, hr, hu, ho⟩ := hspec i hi
      refine ⟨style, u, hs, ?_, hu, ho⟩
      have : ((List.range ps.length).map oracle)[i]? = some (oracle i) := by
        simp [List.getElem?_map, List.getElem?_range, hpl ▸ hi]
      rw [this] at hr
      exact (Option.some.injEq _ _).mp hr

/-- Decomposition of a successful `generateFinalImages` call on an array
state: a positional join of each scene with the (non-falsy) URL of the image
call of the same index. -/
theorem generateFinalImages_ok_decomp (xs : List JsValue) (url : String)
    (cResp : Option String) (oracle : Nat → Option String) (out : JsValue)
    (h : FinalStoryService.generateFinalImages (.arr xs) url cResp oracle = .ok out) :
    ∃ ys : List JsValue, out = .arr ys ∧ ys.length = xs.length ∧
      ∀ i, i < xs.length →
        ∃ scene u, xs[i]? = some scene ∧ oracle i = some u ∧ u ≠ "" ∧
          ys[i]? = some (FinalStoryService.finalizeScene scene u) := by
  unfold FinalStoryService.generateFinalImages at h
  cases hc : FinalStoryService.createConsistencyPrompt url cResp with
  | error e => simp [hc] at h
  | ok cp =>
    simp only [hc] at h
    cases hbp : FinalStoryService.buildFinalPrompts cp xs with
    | error e => simp [hbp] at h
    | ok ps =>
      simp only [hbp] at h
      have hpl : ps.length = xs.length := buildFinalPrompts_length cp xs ps hbp
      cases h2 : FinalStoryService.combineFinalScenes xs ((List.range ps.length).map oracle) with
      | error e => rw [h2] at h; cases h
      | ok ys =>
        rw [h2] at h
        cases h
        obtain ⟨hlen, hspec⟩ := combineFinalScenes_spec xs ((List.range ps.length).map oracle) ys h2
        refine ⟨ys, rfl, hlen, ?_⟩
        intro i hi
        obtain ⟨scene, u, hs, hr, hu, ho⟩ := hspec i hi
        refine ⟨scene, u, hs, ?_, hu, ho⟩
        have : ((List.range ps.length).map oracle)[i]? = some (oracle i) := by
          simp [List.getElem?_map, List.getElem?_range, hpl ▸ hi]
        rw [this] at hr
        exact (Option.some.injEq _ _).mp hr

/-- C7: in both concurrent image batches (the three style previews and the
per-scene final illustrations) results are joined positionally — on success
the i-th output item is built from the i-th input item and the result of the
i-th image call. -/
theorem batch_join_positional :
    (∀ firstScene resp oracle (out : List JsValue),
      ArtStyleService.suggestStyles firstScene resp oracle = .ok out →
      ∃ styles, ArtStyleService.generateStylePrompts firstScene resp = .ok styles ∧
        out.length = styles.length ∧
        ∀ i, i < styles.length →
          ∃ style u, styles[i]? = some style ∧ oracle i = some u ∧ u ≠ "" ∧
            out[i]? = some (ArtStyleService.spreadWithImageUrl style u)) ∧
    (∀ (xs : List JsValue) url cResp oracle (out : JsValue),
      FinalStoryService.generateFinalImages (.arr xs) url cResp oracle = .ok out →
      ∃ ys : List JsValue, out = .arr ys ∧ ys.length = xs.length ∧
        ∀ i, i < xs.length →
          ∃ scene u, xs[i]? = some scene ∧ oracle i = some u ∧ u ≠ "" ∧
            ys[i]? = some (FinalStoryService.finalizeScene scene u)) := by
  constructor
  · intro firstScene resp oracle out h
    obtain ⟨styles, h1, _h3, h2, h4⟩ := suggestStyles_ok_decomp firstScene resp oracle out h
    exact ⟨styles, h1, h2, h4⟩
  · intro xs url cResp oracle out h
    exact generateFinalImages_ok_decomp xs url cResp oracle out h

/-- Witness for C7 at a concrete style batch and a concrete one-scene final
batch. -/
theorem batch_join_positional_witness :
    (∃ styles, ArtStyleService.generateStylePrompts
        (sceneToJs ⟨1, "n", "c", "ci", "d", "bg"⟩)
        (.parsed (.obj [("artStyles", .arr [.num 1, .num 2, .num 3])])) = .ok styles ∧
      ([JsValue.obj [("imageUrl", .str "http://img")], .obj [("imageUrl", .str "http://img")],
        .obj [("imageUrl", .str "http://img")]] : List JsValue).length = styles.length ∧
      ∀ i, i < styles.length →
        ∃ style u, styles[i]? = some style ∧ (fun _ => some "http://img") i = some u ∧ u ≠ "" ∧
          ([JsValue.obj [("imageUrl", .str "http://img")], .obj [("imageUrl", .str "http://img")],
            .obj [("imageUrl", .str "http://img")]] : List JsValue)[i]? =
            some (ArtStyleService.spreadWithImageUrl style u)) ∧
    (∃ ys : List JsValue,
      JsValue.arr [.obj [("id", .num 7), ("narrator", .str "n"), ("character", .str "c"),
        ("characterImagePrompt", .str "http://img"), ("dialogue", .str "d"),
        ("backgroundPrompt", .str "")]] = .arr ys ∧
      ys.length = ([sceneToJs ⟨7, "n", "c", "ci", "d", "bg"⟩] : List JsValue).length ∧
      ∀ i, i < ([sceneToJs ⟨7, "n", "c", "ci", "d", "bg"⟩] : List JsValue).length →
        ∃ scene u, ([sceneToJs ⟨7, "n", "c", "ci", "d", "bg"⟩] : List JsValue)[i]? = some scene ∧
          (fun _ => some "http://img") i = some u ∧ u ≠ "" ∧
          ys[i]? = some (FinalStoryService.finalizeScene scene u)) :=
  ⟨batch_join_positional.1 (sceneToJs ⟨1, "n", "c", "ci", "d", "bg"⟩)
      (.parsed (.obj [("artStyles", .arr [.num 1, .num 2, .num 3])]))
      (fun _ => some "http://img") _ rfl,
    batch_join_positional.2 [sceneToJs ⟨7, "n", "c", "ci", "d", "bg"⟩] "http://ref"
      (some "style desc") (fun _ => some "http://img") _ rfl⟩

/-- A `.length` access only throws on `null` and `undefined`. -/
theorem jsLength_error_cases (v : JsValue) (e : Unit) (h : jsLength v = .error e) :
    v = .null ∨ v = .undefined := by
  cases v <;> simp [jsLength] at h <;> simp

/-- C3 (amended): the refinement stage accepts a response whose scene count
differs from the input count, returning it with a warning; and it fails
exactly when the response is empty, not valid JSON, or its parsed value is
`null` (so the `story` access throws) or carries a `null`/absent `story`
(so the warning itself throws).  Any other `story` value — an array of any
elements or even a non-array — is accepted. -/
theorem refineStory_warning_and_failure_spec :
    (∀ (xs : List JsValue) (prompt : String) (v : JsValue) (ys : List JsValue),
      getProp v "story" = .ok (.arr ys) → ys.length ≠ xs.length →
      StoryGeneratorService.refineStory (.arr xs) prompt (.parsed v) = .ok (.arr ys, true)) ∧
    (∀ (xs : List JsValue) (prompt : String) (resp : ChatContent),
      (∃ e, StoryGeneratorService.refineStory (.arr xs) prompt resp = .error e) ↔
        (resp = .empty ∨ (∃ raw, resp = .unparseable raw) ∨
          ∃ v, resp = .parsed v ∧ (v = .null ∨ v = .undefined ∨
            getProp v "story" = .ok .null ∨ getProp v "story" = .ok .undefined))) := by
  constructor
  · intro xs prompt v ys hp hne
    unfold StoryGeneratorService.refineStory
    have hcond : (some ys.length == some xs.length) = false := by
      simp [hne]
    simp [jsLength, hp, hcond]
  · intro xs prompt resp
    constructor
    · rintro ⟨e, h⟩
      unfold StoryGeneratorService.refineStory at h
      cases resp with
      | empty => exact .inl rfl
      | unparseable raw => exact .inr (.inl ⟨raw, rfl⟩)
      | parsed v =>
        refine .inr (.inr ⟨v, rfl, ?_⟩)
        simp only [jsLength] at h
        cases hp : getProp v "story" with
        | error e2 =>
          rcases getProp_error_cases v "story" e2 hp with h1 | h1
          · exact .inl h1
          · exact .inr (.inl h1)
        | ok sa =>
          simp only [hp] at h
          cases sa with
          | arr ys =>
            by_cases hl : (some ys.length == some xs.length) = true
            · simp [hl] at h
            · simp [hl, jsLength] at h
          | null => exact .inr (.inr (.inl rfl))
          | undefined => exact .inr (.inr (.inr rfl))
          | bool b => simp [jsLength] at h
          | num m => simp [jsLength] at h
          | str s => simp [jsLength] at h
          | obj fs => simp [jsLength] at h
    · rintro (rfl | ⟨raw, rfl⟩ | ⟨v, rfl, hbad⟩)
      · exact ⟨_, rfl⟩
      · exact ⟨_, rfl⟩
      · rcases hbad with rfl | rfl | hp | hp
        · exact ⟨_, rfl⟩
        · exact ⟨_, rfl⟩
        · exact ⟨StoryGeneratorService.refinementFailureMsg,
            by unfold StoryGeneratorService.refineStory; simp [jsLength, hp]⟩
        · exact ⟨StoryGeneratorService.refinementFailureMsg,
            by unfold StoryGeneratorService.refineStory; simp [jsLength, hp]⟩

/-- A concrete well-formed scene object (shared by several counterexamples). -/
def demoSceneJs : JsValue :=
  sceneToJs ⟨1, "A robot wakes on a dead planet.", "Robo", "a small rusty robot",
    "Where is everyone?", "a vast dusty plain"⟩

/-- Modelled from the claim wording of C3: an element of "the expected shape"
— an object carrying the six scene fields with their expected primitive
types. -/
def isSceneObjJs (v : JsValue) : Bool :=
  (match getProp v "id" with | .ok (.num _) => true | _ => false) &&
  (match getProp v "narrator" with | .ok (.str _) => true | _ => false) &&
  (match getProp v "character" with | .ok (.str _) => true | _ => false) &&
  (match getProp v "characterImagePrompt" with | .ok (.str _) => true | _ => false) &&
  (match getProp v "dialogue" with | .ok (.str _) => true | _ => false) &&
  (match getProp v "backgroundPrompt" with | .ok (.str _) => true | _ => false)

/-- Modelled from the claim wording of C3: a response "parseable as the
expected shape (an array of scene objects)". -/
def parseableAsSceneArray : ChatContent → Bool
  | .parsed v =>
    (match getProp v "story" with
      | .ok (.arr xs) => xs.all isSceneObjJs
      | _ => false)
  | .empty => false
  | .unparseable _ => false

/-- Counterexample to C3 as stated: the model response `{"story": 42}` is
non-empty and not parseable as an array of scene objects, yet `refineStory`
does not fail — it returns `42` (with a warning), so failure does not happen
"exactly when the response is empty or not parseable as the expected
shape". -/
theorem refineStory_accepts_nonarray_story :
    StoryGeneratorService.refineStory (.arr [demoSceneJs]) "Make the robot angrier"
      (.parsed (.obj [("story", .num 42)])) = .ok (.num 42, true) ∧
    parseableAsSceneArray (.parsed (.obj [("story", .num 42)])) = false ∧
    (ChatContent.parsed (.obj [("story", .num 42)]) ≠ .empty) :=
  ⟨rfl, rfl, fun h => ChatContent.noConfusion h⟩

/-- Witness for C3 (amended): a count-drifting array response is accepted
with a warning, and an empty response fails. -/
theorem refineStory_warning_and_failure_spec_witness :
    StoryGeneratorService.refineStory (.arr [demoSceneJs]) "Add a second scene"
      (.parsed (.obj [("story", .arr [demoSceneJs, demoSceneJs])])) =
      .ok (.arr [demoSceneJs, demoSceneJs], true) ∧
    (∃ e, StoryGeneratorService.refineStory (.arr [demoSceneJs]) "Add a second scene"
      .empty = .error e) :=
  ⟨refineStory_warning_and_failure_spec.1 [demoSceneJs] "Add a second scene"
      (.obj [("story", .arr [demoSceneJs, demoSceneJs])]) [demoSceneJs, demoSceneJs]
      rfl (by decide),
    (refineStory_warning_and_failure_spec.2 [demoSceneJs] "Add a second scene" .empty).mpr
      (.inl rfl)⟩

/-- Overwriting key `k` in place leaves lookups of any other key unchanged. -/
theorem find?_map_replace (k : String) (v : JsValue) (k2 : String) (h : k2 ≠ k) :
    ∀ fs : List (String × JsValue),
      (fs.map (fun kv => if kv.1 == k then (k, v) else kv)).find? (fun kv => kv.1 == k2) =
        fs.find? (fun kv => kv.1 == k2)
  | [] => rfl
  | a :: as => by
    by_cases ha : a.1 == k
    · have hk2 : ¬(k = k2) := fun hh => h hh.symm
      have ha2 : (a.1 == k2) = false := by
        have hak : a.1 = k := by simpa using ha
        simp [hak, hk2]
      rw [List.map_cons, if_pos ha]
      rw [List.find?_cons_of_neg _ (by simp [hk2]),
        List.find?_cons_of_neg _ (by simp [ha2])]
      exact find?_map_replace k v k2 h as
    · rw [List.map_cons, if_neg ha]
      by_cases ha2 : a.1 == k2
      · rw [List.find?_cons_of_pos _ (by simpa using ha2),
          List.find?_cons_of_pos _ (by simpa using ha2)]
      · rw [List.find?_cons_of_neg _ (by simpa using ha2),
          List.find?_cons_of_neg _ (by simpa using ha2)]
        exact find?_map_replace k v k2 h as

/-- Looking up the key `setField` just set yields the new value. -/
theorem find?_setField_self (k : String) (v : JsValue) :
    ∀ fs : List (String × JsValue),
      (setField fs k v).find? (fun kv => kv.1 == k) = some (k, v)
  | [] => by simp [setField, List.find?]
  | a :: as => by
    unfold setField
    by_cases ha : a.1 == k
    · rw [if_pos (by simp [List.any_cons, ha])]
      rw [List.map_cons, if_pos ha, List.find?_cons_of_pos _ (by simp)]
    · by_cases has : as.any (fun kv => kv.1 == k)
      · rw [if_pos (by simp only [List.any_cons, ha, Bool.false_or]; exact has)]
        rw [List.map_cons, if_neg ha, List.find?_cons_of_neg _ (by simpa using ha)]
        have h2 := find?_setField_self k v as
        rw [setField, if_pos has] at h2
        exact h2
      · rw [if_neg (by simp only [List.any_cons, ha, Bool.false_or]; exact has)]
        rw [List.cons_append, List.find?_cons_of_neg _ (by simpa using ha)]
        have h2 := find?_setField_self k v as
        rw [setField, if_neg has] at h2
        exact h2

/-- Looking up any other key after `setField` is the original lookup. -/
theorem find?_setField_other (k : String) (v : JsValue) (k2 : String) (h : k2 ≠ k)
    (fs : List (String × JsValue)) :
    (setField fs k v).find? (fun kv => kv.1 == k2) = fs.find? (fun kv => kv.1 == k2) := by
  unfold setField
  by_cases hany : fs.any (fun kv => kv.1 == k)
  · rw [if_pos hany]
    exact find?_map_replace k v k2 h fs
  · rw [if_neg hany, List.find?_append]
    cases hf : fs.find? (fun kv => kv.1 == k2) with
    | some a => rfl
    | none =>
      have hk2 : ¬(k = k2) := fun hh => h hh.symm
      have hb : (k == k2) = false := by simp [hk2]
      simp [List.find?, hb]

/-- The joined suggestion always carries the generated URL under
`imageUrl`. -/
theorem getProp_spread_imageUrl (style : JsValue) (u : String) :
    getProp (ArtStyleService.spreadWithImageUrl style u) "imageUrl" = .ok (.str u) := by
  simp [ArtStyleService.spreadWithImageUrl, getProp, find?_setField_self]

/-- The joined suggestion keeps every other field of an object-shaped style
value. -/
theorem getProp_spread_obj (fs : List (String × JsValue)) (u : String) (k : String)
    (h : k ≠ "imageUrl") :
    getProp (ArtStyleService.spreadWithImageUrl (.obj fs) u) k = getProp (.obj fs) k := by
  simp [ArtStyleService.spreadWithImageUrl, ownFields, getProp, find?_setField_other _ _ _ h]

/-- A well-formed style value: an object with string `name`, `description`
and `imagePrompt` fields (the shape the system instruction requests; the
code never checks it). -/
def isStylePromptObj (v : JsValue) : Bool :=
  match v with
  | .obj _ =>
    (match getProp v "name" with | .ok (.str _) => true | _ => false) &&
    (match getProp v "description" with | .ok (.str _) => true | _ => false) &&
    (match getProp v "imagePrompt" with | .ok (.str _) => true | _ => false)
  | _ => false

/-- Extract the string from a shape test over an `Except`-wrapped value. -/
theorem except_match_str {m : Except Unit JsValue}
    (h : (match m with | .ok (.str _) => true | _ => false) = true) :
    ∃ s, m = .ok (.str s) := by
  cases m with
  | error e => exact absurd h (by simp)
  | ok v =>
    cases v with
    | str s => exact ⟨s, rfl⟩
    | undefined => exact absurd h (by simp)
    | null => exact absurd h (by simp)
    | bool b => exact absurd h (by simp)
    | num n => exact absurd h (by simp)
    | arr xs => exact absurd h (by simp)
    | obj fs => exact absurd h (by simp)

/-- A well-formed style value keeps its three fields through the image-URL
spread. -/
theorem spread_fields_of_wf (style : JsValue) (u : String)
    (hw : isStylePromptObj style = true) :
    (∃ nm, getProp (ArtStyleService.spreadWithImageUrl style u) "name" = .ok (.str nm)) ∧
    (∃ ds, getProp (ArtStyleService.spreadWithImageUrl style u) "description" = .ok (.str ds)) ∧
    (∃ ip, getProp (ArtStyleService.spreadWithImageUrl style u) "imagePrompt" =
      .ok (.str ip)) := by
  cases style with
  | obj fs =>
    simp only [isStylePromptObj, Bool.and_eq_true] at hw
    obtain ⟨⟨h1, h2⟩, h3⟩ := hw
    obtain ⟨nm, h1⟩ := except_match_str h1
    obtain ⟨ds, h2⟩ := except_match_str h2
    obtain ⟨ip, h3⟩ := except_match_str h3
    rw [getProp_spread_obj fs u "name" (by decide),
      getProp_spread_obj fs u "description" (by decide),
      getProp_spread_obj fs u "imagePrompt" (by decide)]
    exact ⟨⟨nm, h1⟩, ⟨ds, h2⟩, ⟨ip, h3⟩⟩
  | undefined => simp [isStylePromptObj] at hw
  | null => simp [isStylePromptObj] at hw
  | bool b => simp [isStylePromptObj] at hw
  | num n => simp [isStylePromptObj] at hw
  | str s => simp [isStylePromptObj] at hw
  | arr xs => simp [isStylePromptObj] at hw

/-- C4 (amended): a successful `suggestStyles` call returns exactly three
suggestions, each pairing the style value of the same index with the
(non-falsy) URL of the image call of the same index under `imageUrl`; when
the three style values are well-formed style objects each suggestion also
carries `name`, `description` and `imagePrompt` (element shapes are never
validated, so this holds only conditionally); a text-stage failure — in
particular an `artStyles` array whose length is not three — fails the whole
call, and success requires every one of the three image calls to return a
usable URL (no partial set is ever returned). -/
theorem suggestStyles_batch_spec :
    (∀ firstScene resp oracle (out : List JsValue),
      ArtStyleService.suggestStyles firstScene resp oracle = .ok out →
      out.length = 3 ∧
      ∃ styles, ArtStyleService.generateStylePrompts firstScene resp = .ok styles ∧
        styles.length = 3 ∧
        ∀ i, i < 3 →
          ∃ style u, styles[i]? = some style ∧ oracle i = some u ∧ u ≠ "" ∧
            out[i]? = some (ArtStyleService.spreadWithImageUrl style u) ∧
            getProp (ArtStyleService.spreadWithImageUrl style u) "imageUrl" = .ok (.str u) ∧
            (isStylePromptObj style = true →
              (∃ nm, getProp (ArtStyleService.spreadWithImageUrl style u) "name" =
                .ok (.str nm)) ∧
              (∃ ds, getProp (ArtStyleService.spreadWithImageUrl style u) "description" =
                .ok (.str ds)) ∧
              (∃ ip, getProp (ArtStyleService.spreadWithImageUrl style u) "imagePrompt" =
                .ok (.str ip)))) ∧
    (∀ firstScene resp oracle e,
      ArtStyleService.generateStylePrompts firstScene resp = .error e →
      ArtStyleService.suggestStyles firstScene resp oracle = .error e) ∧
    (∀ firstScene (v : JsValue) (p : String) (xs : List JsValue),
      ArtStyleService.buildPrompt firstScene = .ok p →
      getProp v "artStyles" = .ok (.arr xs) → xs.length ≠ 3 →
      ArtStyleService.generateStylePrompts firstScene (.parsed v) =
        .error ArtStyleService.styleCountMsg) := by
  refine ⟨?_, ?_, ?_⟩
  · intro firstScene resp oracle out h
    obtain ⟨styles, h1, h3, h2, h4⟩ := suggestStyles_ok_decomp firstScene resp oracle out h
    refine ⟨by rw [h2, h3], styles, h1, h3, ?_⟩
    intro i hi
    obtain ⟨style, u, hs, ho, hu, hout⟩ := h4 i (by rw [h3]; exact hi)
    exact ⟨style, u, hs, ho, hu, hout, getProp_spread_imageUrl style u,
      fun hw => spread_fields_of_wf style u hw⟩
  · intro firstScene resp oracle e h
    unfold ArtStyleService.suggestStyles
    rw [h]
  · intro firstScene v p xs hbp hp hl
    simp [ArtStyleService.generateStylePrompts, hbp, hp, hl]

/-- Counterexample to C4 as stated: with the parseable (but unvalidated)
response `{"artStyles": [1, 2, 3]}` and three successful image calls,
`suggestStyles` succeeds — yet the returned suggestions carry no `name`
field ("each with name, description, imagePrompt" fails on the code). -/
theorem suggestStyles_success_without_style_fields :
    ArtStyleService.suggestStyles demoSceneJs
      (.parsed (.obj [("artStyles", .arr [.num 1, .num 2, .num 3])]))
      (fun _ => some "http://img") =
      .ok [.obj [("imageUrl", .str "http://img")], .obj [("imageUrl", .str "http://img")],
        .obj [("imageUrl", .str "http://img")]] ∧
    getProp (.obj [("imageUrl", .str "http://img")]) "name" = .ok .undefined :=
  ⟨rfl, rfl⟩

/-- Witness for C4 (amended): a concrete success with three well-formed
styles, and a concrete two-style response failing the text stage. -/
theorem suggestStyles_batch_spec_witness :
    (ArtStyleService.suggestStyles demoSceneJs
        (.parsed (.obj [("artStyles", .arr [.num 1, .num 2, .num 3])]))
        (fun _ => some "http://img") =
        .ok [.obj [("imageUrl", .str "http://img")], .obj [("imageUrl", .str "http://img")],
          .obj [("imageUrl", .str "http://img")]] →
      ([JsValue.obj [("imageUrl", .str "http://img")], .obj [("imageUrl", .str "http://img")],
        .obj [("imageUrl", .str "http://img")]] : List JsValue).length = 3) ∧
    ArtStyleService.generateStylePrompts demoSceneJs
      (.parsed (.obj [("artStyles", .arr [.num 1, .num 2])])) =
      .error ArtStyleService.styleCountMsg := by
  constructor
  · intro h
    exact (suggestStyles_batch_spec.1 demoSceneJs
      (.parsed (.obj [("artStyles", .arr [.num 1, .num 2, .num 3])]))
      (fun _ => some "http://img") _ h).1
  · exact suggestStyles_batch_spec.2.2 demoSceneJs
      (.obj [("artStyles", .arr [.num 1, .num 2])])
      (ArtStyleService.buildPrompt demoSceneJs).toOption.get!
      [.num 1, .num 2] (by rfl) rfl (by decide)

/-- Story generation only succeeds with exactly the requested number of
(unvalidated) scene values. -/
theorem generateLinearStory_ok_length (briefing : String) (n : Nat) (resp : ChatContent)
    (story : List JsValue)
    (h : StoryGeneratorService.generateLinearStory briefing n resp = .ok story) :
    story.length = n := by
  unfold StoryGeneratorService.generateLinearStory at h
  cases resp with
  | empty => cases h
  | unparseable raw => cases h
  | parsed v =>
    cases hp : getProp v "story" with
    | error e => simp [hp] at h
    | ok sa =>
      simp only [hp] at h
      cases sa with
      | arr xs =>
        by_cases hl : xs.length = n
        · simp only [hl, if_true] at h
          cases h
          exact hl
        · simp [hl] at h
      | undefined => cases h
      | null => cases h
      | bool b => cases h
      | num m => cases h
      | str s => cases h
      | obj fs => cases h

/-- C6 (amended): the style stage issues exactly three image calls once its
text stage validated, and the final-illustration stage issues exactly one
image call per element of the current story state; at creation that batch
size equals the requested sceneCount (2–10), but it is the story length, not
the sceneCount, that bounds the batch — refinement may change the story
length without any re-validation, so the 10-call bound holds only for
sessions that have not drifted. -/
theorem batch_size_spec :
    (∀ firstScene resp styles,
      ArtStyleService.generateStylePrompts firstScene resp = .ok styles →
      styles.length = 3) ∧
    (∀ cp (xs : List JsValue) ps,
      FinalStoryService.buildFinalPrompts cp xs = .ok ps → ps.length = xs.length) ∧
    (∀ xs : List JsValue, finalBatchSize (.arr xs) = xs.length) ∧
    (∀ briefing n fresh resp story,
      10 ≤ briefing.length → 2 ≤ n → n ≤ 10 →
      StoryGeneratorService.generateLinearStory briefing n resp = .ok story →
      finalBatchSize (mkSession briefing n fresh story).currentStoryState = n ∧
      (mkSession briefing n fresh story).sceneCount = n ∧ n ≤ 10) := by
  refine ⟨generateStylePrompts_three, buildFinalPrompts_length, fun xs => rfl, ?_⟩
  intro briefing n fresh resp story _hb _h2 h10 h
  refine ⟨?_, rfl, h10⟩
  have hl := generateLinearStory_ok_length briefing n resp story h
  simp [mkSession, generateUuid, finalBatchSize, hl]

/-- The session obtained by creating a 2-scene story and then refining it
with a response that replaced it by 11 scenes (accepted with a warning). -/
def driftSession : StorySession :=
  { uuid := some "u0", initialBriefing := "0123456789", sceneCount := 2,
    currentStoryState := .arr (List.replicate 11 demoSceneJs) }

/-- Counterexample to C6 as stated: a session reachable through create and
refine whose final-illustration batch would be 11 image calls — more than
its sceneCount (2) and more than the claimed hard bound of 10. -/
theorem reachable_session_batch_exceeds_bounds :
    ReachableSession driftSession ∧ driftSession.sceneCount = 2 ∧
    finalBatchSize driftSession.currentStoryState = 11 := by
  refine ⟨?_, rfl, rfl⟩
  have h1 : ReachableSession (mkSession "0123456789" 2 "u0" [demoSceneJs, demoSceneJs]) :=
    .created "0123456789" 2 "u0"
      (.parsed (.obj [("story", .arr [demoSceneJs, demoSceneJs])]))
      [demoSceneJs, demoSceneJs] (by decide) (by decide) (by decide) rfl
  exact ReachableSession.refined (mkSession "0123456789" 2 "u0" [demoSceneJs, demoSceneJs])
    "Make it an epic of eleven scenes"
    (.parsed (.obj [("story", .arr (List.replicate 11 demoSceneJs))]))
    (.arr (List.replicate 11 demoSceneJs)) true h1 (by decide) rfl

/-- Witness for C6 (amended) at concrete inputs for all four parts. -/
theorem batch_size_spec_witness :
    ([JsValue.num 1, .num 2, .num 3] : List JsValue).length = 3 ∧
    (∀ ps, FinalStoryService.buildFinalPrompts "cp" [demoSceneJs] = .ok ps →
      ps.length = ([demoSceneJs] : List JsValue).length) ∧
    finalBatchSize (.arr [demoSceneJs]) = 1 ∧
    (finalBatchSize (mkSession "0123456789" 2 "u9"
        [demoSceneJs, demoSceneJs]).currentStoryState = 2 ∧
      (mkSession "0123456789" 2 "u9" [demoSceneJs, demoSceneJs]).sceneCount = 2 ∧ 2 ≤ 10) :=
  ⟨batch_size_spec.1 demoSceneJs
      (.parsed (.obj [("artStyles", .arr [.num 1, .num 2, .num 3])]))
      [.num 1, .num 2, .num 3] rfl,
    fun ps hps => batch_size_spec.2.1 "cp" [demoSceneJs] ps hps,
    batch_size_spec.2.2.1 [demoSceneJs],
    batch_size_spec.2.2.2 "0123456789" 2 "u9"
      (.parsed (.obj [("story", .arr [demoSceneJs, demoSceneJs])]))
      [demoSceneJs, demoSceneJs] (by decide) (by decide) (by decide) rfl⟩

/-! ## Round-trip of the session serialization (claim C8)

`prepare` stores a scene list as its `JSON.stringify`; `consume` reads it
back through `JSON.parse`.  The lemmas below prove the two inverse for every
well-formed scene list, character by character. -/

/-- `Char.ofNat` of a small code decodes to that code. -/
theorem toNat_ofNat_small (m : Nat) (h : m < 55296) : (Char.ofNat m).toNat = m := by
  have hv : m.isValidChar := Or.inl h
  rw [Char.ofNat, dif_pos hv]
  rfl

/-- A digit character is not a minus sign. -/
theorem digit_ne_minus {c : Char} (h : isDigitChar c = true) : c ≠ '-' := by
  intro h2
  subst h2
  exact absurd h (by decide)

/-- Decimal printing emits digit-headed, non-empty output. -/
theorem natCharsAux_head : ∀ (f n : Nat), n < f →
    ∃ d ds, natCharsAux f n = d :: ds ∧ isDigitChar d = true
  | 0, n, h => absurd h (Nat.not_lt_zero n)
  | f + 1, n, h => by
    unfold natCharsAux
    by_cases h10 : n < 10
    · refine ⟨Char.ofNat (48 + n), [], by simp [h10], ?_⟩
      simp only [isDigitChar, toNat_ofNat_small (48 + n) (by omega)]
      simp
      omega
    · have hdiv : n / 10 < f := by omega
      obtain ⟨d, ds, hds, hd⟩ := natCharsAux_head f (n / 10) hdiv
      exact ⟨d, ds ++ [Char.ofNat (48 + n % 10)], by simp [h10, hds], hd⟩

/-- `parseDigits` consumes exactly a printed digit run, folding its value
onto the accumulator. -/
theorem parseDigits_natCharsAux : ∀ (f n acc : Nat) (rest : List Char), n < f →
    parseDigits (natCharsAux f n ++ rest) acc =
      parseDigits rest (acc * 10 ^ (natCharsAux f n).length + n)
  | 0, n, acc, rest, h => absurd h (Nat.not_lt_zero n)
  | f + 1, n, acc, rest, h => by
    unfold natCharsAux
    by_cases h10 : n < 10
    · simp only [h10, if_true, List.cons_append, List.nil_append]
      have hdig : isDigitChar (Char.ofNat (48 + n)) = true := by
        simp only [isDigitChar, toNat_ofNat_small (48 + n) (by omega)]
        simp
        omega
      simp only [parseDigits, hdig, if_true, toNat_ofNat_small (48 + n) (by omega)]
      have : acc * 10 + (48 + n - 48) = acc * 10 ^ 1 + n := by omega
      rw [this]
      simp
    · simp only [h10, if_false]
      have hdiv : n / 10 < f := by omega
      rw [List.append_assoc, parseDigits_natCharsAux f (n / 10) acc _ hdiv]
      have hdig : isDigitChar (Char.ofNat (48 + n % 10)) = true := by
        simp only [isDigitChar, toNat_ofNat_small (48 + n % 10) (by omega)]
        simp
        omega
      simp only [List.cons_append, List.nil_append, parseDigits, hdig, if_true,
        toNat_ofNat_small (48 + n % 10) (by omega)]
      have harith : (acc * 10 ^ (natCharsAux f (n / 10)).length + n / 10) * 10 +
          (48 + n % 10 - 48) =
          acc * 10 ^ ((natCharsAux f (n / 10)).length + 1) + n := by
        rw [pow_succ]
        have := Nat.div_add_mod n 10
        ring_nf
        omega
      rw [harith]
      simp

/-- A list whose head is not a digit (or which is empty). -/
def digitHeadFree (rest : List Char) : Bool :=
  match rest with
  | [] => true
  | c :: _ => !isDigitChar c

/-- `parseDigits` stops at a non-digit. -/
theorem parseDigits_stop (rest : List Char) (h : digitHeadFree rest = true) (acc : Nat) :
    parseDigits rest acc = (acc, rest) := by
  cases rest with
  | nil => rfl
  | cons c cs =>
    simp only [digitHeadFree, Bool.not_eq_true'] at h
    simp [parseDigits, h]

/-- The integer codec round-trip: parsing a printed integer recovers it,
for any continuation that does not begin with a digit. -/
theorem parseIntLit_intChars (i : Int) (rest : List Char) (h : digitHeadFree rest = true) :
    parseIntLit (intChars i ++ rest) = some (i, rest) := by
  obtain ⟨d, ds, hds, hd⟩ := natCharsAux_head (i.natAbs + 1) i.natAbs (Nat.lt_succ_self _)
  have hrun : parseDigits (natChars i.natAbs ++ rest) 0 = (i.natAbs, rest) := by
    rw [natChars, parseDigits_natCharsAux _ _ _ _ (Nat.lt_succ_self _), parseDigits_stop _ h]
    simp
  have hcons : natChars i.natAbs ++ rest = d :: (ds ++ rest) := by
    rw [natChars, hds]
    simp
  unfold intChars
  by_cases hi : i < 0
  · rw [if_pos hi]
    show parseIntLit ('-' :: (natChars i.natAbs ++ rest)) = _
    rw [hcons]
    have hstep : parseIntLit ('-' :: d :: (ds ++ rest)) =
        if isDigitChar d then
          some (-(((parseDigits (d :: (ds ++ rest)) 0).1 : Nat) : Int),
            (parseDigits (d :: (ds ++ rest)) 0).2)
        else none := rfl
    rw [hstep, if_pos hd, ← hcons, hrun]
    have hval : -((i.natAbs : Nat) : Int) = i := by omega
    rw [hval]
  · rw [if_neg hi, hcons]
    have hdm := digit_ne_minus hd
    simp only [parseIntLit]
    rw [if_neg hdm, if_pos hd, ← hcons, hrun]
    have hval : ((i.natAbs : Nat) : Int) = i := by omega
    rw [hval]

/-- `hexVal` inverts `hexChar` on one hex digit. -/
theorem hexVal_hexChar : ∀ n, n < 16 → hexVal (hexChar n) = some n := by decide

/-- An escaped character is non-empty. -/
theorem escChar_length_pos (c : Char) : 1 ≤ (escChar c).length := by
  unfold escChar
  split
  · simp
  split
  · simp
  split
  · simp
  split
  · simp
  split
  · simp
  split
  · simp
  split
  · simp
  split
  · simp
  · simp

set_option maxHeartbeats 1000000 in
/-- Decoding one escaped character undoes the escaping, consuming one unit
of fuel. -/
theorem strBody_escChar (c : Char) (f : Nat) (rest : List Char) :
    strBody (f + 1) (escChar c ++ rest) = consCh c (strBody f rest) := by
  unfold escChar
  by_cases h1 : c = '"'
  · subst h1
    rfl
  rw [if_neg h1]
  by_cases h2 : c = '\\'
  · subst h2
    rfl
  rw [if_neg h2]
  by_cases h3 : c = '\n'
  · subst h3
    rfl
  rw [if_neg h3]
  by_cases h4 : c = '\t'
  · subst h4
    rfl
  rw [if_neg h4]
  by_cases h5 : c = '\r'
  · subst h5
    rfl
  rw [if_neg h5]
  by_cases h6 : c = Char.ofNat 8
  · subst h6
    rfl
  rw [if_neg h6]
  by_cases h7 : c = Char.ofNat 12
  · subst h7
    rfl
  rw [if_neg h7]
  by_cases h8 : c.toNat < 32
  · rw [if_pos h8]
    have hhi : c.toNat / 16 < 16 := by omega
    have hlo : c.toNat % 16 < 16 := by omega
    simp only [List.cons_append, List.nil_append]
    show (hex4 '0' '0' (hexChar (c.toNat / 16)) (hexChar (c.toNat % 16))).elim none
      (fun code => consCh (Char.ofNat code) (strBody f rest)) = consCh c (strBody f rest)
    have hh : hex4 '0' '0' (hexChar (c.toNat / 16)) (hexChar (c.toNat % 16)) =
        some c.toNat := by
      have hv0 : hexVal '0' = some 0 := rfl
      simp [hex4, hv0, hexVal_hexChar _ hhi, hexVal_hexChar _ hlo]
      omega
    rw [hh]
    show consCh (Char.ofNat c.toNat) (strBody f rest) = consCh c (strBody f rest)
    rw [Char.ofNat_toNat]
  · rw [if_neg h8]
    simp only [List.cons_append, List.nil_append]
    simp only [strBody]
    rw [if_neg h1, if_neg h2, if_neg h8]

/-- Decoding a fully escaped run stops exactly at the closing quote. -/
theorem strBody_run : ∀ (l : List Char) (f : Nat) (rest : List Char),
    strBody (l.length + f + 1) ((l.map escChar).flatten ++ '"' :: rest) = some (l, rest)
  | [], f, rest => rfl
  | c :: l, f, rest => by
    have hf : (c :: l).length + f + 1 = (l.length + f + 1) + 1 := by
      simp only [List.length_cons]
      omega
    rw [hf]
    simp only [List.map_cons, List.flatten_cons, List.append_assoc]
    rw [strBody_escChar, strBody_run l f rest]
    rfl

/-- Each character escapes to at least one character. -/
theorem escFlatten_length (l : List Char) :
    l.length ≤ ((l.map escChar).flatten).length := by
  induction l with
  | nil => simp
  | cons c l ih =>
    simp only [List.map_cons, List.flatten_cons, List.length_append, List.length_cons]
    have := escChar_length_pos c
    omega

/-- The string-literal codec round-trip, after the opening quote. -/
theorem parseStringLit_escape (l : List Char) (rest : List Char) :
    parseStringLit ((l.map escChar).flatten ++ '"' :: rest) = some (String.mk l, rest) := by
  unfold parseStringLit
  have hlen : l.length ≤ ((l.map escChar).flatten ++ '"' :: rest).length := by
    have := escFlatten_length l
    simp only [List.length_append, List.length_cons]
    omega
  obtain ⟨g, hg⟩ : ∃ g, ((l.map escChar).flatten ++ '"' :: rest).length + 1 =
      l.length + g + 1 := ⟨((l.map escChar).flatten ++ '"' :: rest).length - l.length, by omega⟩
  rw [hg, strBody_run]
  rfl

/-- `String.mk` undoes `String.toList`. -/
theorem mk_toList_eq (s : String) : String.mk s.toList = s := by cases s; rfl

/-- The quoted form of a string splits as one opening quote, the escaped run
and the closing quote. -/
theorem quoteChars_decomp (s : String) (rest : List Char) :
    quoteChars s ++ rest = '"' :: ((s.toList.map escChar).flatten ++ '"' :: rest) := by
  simp [quoteChars]

/-- `skipJsonWs` is the identity on input that starts with a
non-whitespace character. -/
theorem skipWs_cons (c : Char) (cs : List Char) (h : isJsonWs c = false) :
    skipJsonWs (c :: cs) = c :: cs := by
  simp [skipJsonWs, h]

/-- A digit is not whitespace and opens none of the non-number value
forms. -/
theorem digit_head_facts {c : Char} (h : isDigitChar c = true) :
    isJsonWs c = false ∧ ∀ x ∈ (['n', 't', 'f', '"', '[', '{'] : List Char), c ≠ x := by
  constructor
  · cases hws : isJsonWs c with
    | false => rfl
    | true =>
      simp only [isJsonWs, Bool.or_eq_true, beq_iff_eq] at hws
      rcases hws with ((rfl | rfl) | rfl) | rfl <;> exact absurd h (by decide)
  · intro x hx
    simp only [List.mem_cons, List.not_mem_nil, or_false] at hx
    rcases hx with rfl | rfl | rfl | rfl | rfl | rfl <;>
      (intro heq; subst heq; exact absurd h (by decide))

/-- A digit-headed input goes to the number rule of `parseVal`. -/
theorem parseVal_num_entry (f : Nat) (c : Char) (t : List Char) (h : isDigitChar c = true) :
    parseVal (f + 1) (c :: t) = (parseIntLit (c :: t)).map (fun p => (.num p.1, p.2)) := by
  obtain ⟨hws, hne⟩ := digit_head_facts h
  simp only [parseVal, skipWs_cons c t hws]
  rw [if_neg (hne 'n' (by simp)), if_neg (hne 't' (by simp)), if_neg (hne 'f' (by simp)),
    if_neg (hne '"' (by simp)), if_neg (hne '[' (by simp)), if_neg (hne '{' (by simp))]

/-- A minus-headed input goes to the number rule of `parseVal`. -/
theorem parseVal_minus_entry (f : Nat) (t : List Char) :
    parseVal (f + 1) ('-' :: t) = (parseIntLit ('-' :: t)).map (fun p => (.num p.1, p.2)) := by
  simp only [parseVal, skipWs_cons '-' t (by decide)]
  rw [if_neg (by decide), if_neg (by decide), if_neg (by decide), if_neg (by decide),
    if_neg (by decide), if_neg (by decide)]

/-- `parseVal` round-trips a quoted string value. -/
theorem parseVal_quote (f : Nat) (s : String) (rest : List Char) :
    parseVal (f + 1) (quoteChars s ++ rest) = some (.str s, rest) := by
  rw [quoteChars_decomp]
  simp only [parseVal, skipWs_cons '"' _ (by decide)]
  rw [if_neg (by decide), if_neg (by decide), if_neg (by decide), if_pos trivial,
    parseStringLit_escape, Option.map_some']
  rw [mk_toList_eq]

/-- `parseVal` round-trips a printed integer, for any continuation that does
not begin with a digit. -/
theorem parseVal_int (f : Nat) (i : Int) (rest : List Char) (h : digitHeadFree rest = true) :
    parseVal (f + 1) (intChars i ++ rest) = some (.num i, rest) := by
  have hpl := parseIntLit_intChars i rest h
  by_cases hi : i < 0
  · have hic : intChars i = '-' :: natChars i.natAbs := by
      rw [intChars, if_pos hi]
    rw [hic, List.cons_append, parseVal_minus_entry]
    rw [hic, List.cons_append] at hpl
    rw [hpl, Option.map_some']
  · have hic : intChars i = natChars i.natAbs := by
      rw [intChars, if_neg hi]
    obtain ⟨d, ds, hds, hd⟩ := natCharsAux_head (i.natAbs + 1) i.natAbs (Nat.lt_succ_self _)
    have hcons : intChars i ++ rest = d :: (ds ++ rest) := by
      rw [hic, natChars, hds]
      simp
    rw [hcons, parseVal_num_entry f d _ hd, ← hcons, hpl, Option.map_some']

/-- The serialized characters of one well-formed scene object, in the order
`JSON.stringify` emits the six fields. -/
def sceneChars (s : StoryScene) : List Char :=
  '{' ::
    (quoteChars "id" ++
      ':' :: (intChars s.id ++
        ',' :: (quoteChars "narrator" ++
          ':' :: (quoteChars s.narrator ++
            ',' :: (quoteChars "character" ++
              ':' :: (quoteChars s.character ++
                ',' :: (quoteChars "characterImagePrompt" ++
                  ':' :: (quoteChars s.characterImagePrompt ++
                    ',' :: (quoteChars "dialogue" ++
                      ':' :: (quoteChars s.dialogue ++
                        ',' :: (quoteChars "backgroundPrompt" ++
                          ':' :: (quoteChars s.backgroundPrompt ++ ['}']))))))))))))

/-- `JSON.stringify` prints a well-formed scene exactly as `sceneChars`. -/
theorem stringify_scene (s : StoryScene) : stringifyVal (sceneToJs s) = sceneChars s := by
  simp [stringifyVal, sceneToJs, stringifyFields, jsIsUndef, sceneChars, quoteChars,
    List.append_assoc]

/-- One `"key": value` member parses back, given its value parses back. -/
theorem parseMember_field (f : Nat) (k : String) (vchars : List Char) (v : JsValue)
    (rest : List Char) (hv : parseVal f (vchars ++ rest) = some (v, rest)) :
    parseMember (f + 1) (quoteChars k ++ ':' :: (vchars ++ rest)) = some ((k, v), rest) := by
  rw [quoteChars_decomp]
  simp only [parseMember, skipWs_cons '"' _ (by decide), parseStringLit_escape,
    skipWs_cons ':' _ (by decide), hv, mk_toList_eq]

/-- One further `, "key": value` member accumulates onto the parsed
fields. -/
theorem parseMembers_step (f : Nat) (acc : List (String × JsValue)) (k : String)
    (vchars : List Char) (v : JsValue) (rest : List Char)
    (hv : parseVal f (vchars ++ rest) = some (v, rest)) :
    parseMembers (f + 2) (',' :: (quoteChars k ++ ':' :: (vchars ++ rest))) acc =
      parseMembers (f + 1) rest (setField acc k v) := by
  simp only [parseMembers, skipWs_cons ',' _ (by decide),
    parseMember_field f k vchars v rest hv]

/-- Closing brace ends a member run. -/
theorem parseMembers_close (f : Nat) (acc : List (String × JsValue)) (rest : List Char) :
    parseMembers (f + 1) ('}' :: rest) acc = some (acc, rest) := by
  simp only [parseMembers, skipWs_cons '}' _ (by decide)]

/-- The object branch of `parseVal` on a key-headed body. -/
theorem parseVal_obj_entry (f : Nat) (t : List Char) :
    parseVal (f + 1) ('{' :: ('"' :: t)) =
      (match parseMember f ('"' :: t) with
        | none => none
        | some (kv, r3) =>
          match parseMembers f r3 (setField [] kv.1 kv.2) with
          | none => none
          | some (fs, r4) => some (.obj fs, r4)) := by
  simp only [parseVal, skipWs_cons '{' _ (by decide), skipWs_cons '"' _ (by decide)]
  rw [if_neg (by decide), if_neg (by decide), if_neg (by decide), if_neg (by decide),
    if_neg (by decide), if_pos trivial]
  rfl

/-- Suffix of a serialized scene from its `backgroundPrompt` field on. -/
def sceneTail5 (s : StoryScene) (rest : List Char) : List Char :=
  ',' :: (quoteChars "backgroundPrompt" ++ ':' :: (quoteChars s.backgroundPrompt ++ '}' :: rest))

/-- Suffix of a serialized scene from its `dialogue` field on. -/
def sceneTail4 (s : StoryScene) (rest : List Char) : List Char :=
  ',' :: (quoteChars "dialogue" ++ ':' :: (quoteChars s.dialogue ++ sceneTail5 s rest))

/-- Suffix of a serialized scene from its `characterImagePrompt` field on. -/
def sceneTail3 (s : StoryScene) (rest : List Char) : List Char :=
  ',' :: (quoteChars "characterImagePrompt" ++
    ':' :: (quoteChars s.characterImagePrompt ++ sceneTail4 s rest))

/-- Suffix of a serialized scene from its `character` field on. -/
def sceneTail2 (s : StoryScene) (rest : List Char) : List Char :=
  ',' :: (quoteChars "character" ++ ':' :: (quoteChars s.character ++ sceneTail3 s rest))

/-- Suffix of a serialized scene from its `narrator` field on. -/
def sceneTail1 (s : StoryScene) (rest : List Char) : List Char :=
  ',' :: (quoteChars "narrator" ++ ':' :: (quoteChars s.narrator ++ sceneTail2 s rest))

/-- A serialized scene followed by `rest` decomposes into its first field
and the named suffixes. -/
theorem sceneChars_append (s : StoryScene) (rest : List Char) :
    sceneChars s ++ rest =
      '{' :: (quoteChars "id" ++ ':' :: (intChars s.id ++ sceneTail1 s rest)) := by
  simp [sceneChars, sceneTail1, sceneTail2, sceneTail3, sceneTail4, sceneTail5,
    List.append_assoc]

/-- A serialized scene object parses back to its `JsValue` form (the fuel
covers one nesting level per field). -/
theorem parseVal_scene (f : Nat) (s : StoryScene) (rest : List Char) :
    parseVal (f + 8) (sceneChars s ++ rest) = some (sceneToJs s, rest) := by
  rw [sceneChars_append, quoteChars_decomp "id"]
  rw [show (f + 8) = (f + 7) + 1 from rfl, parseVal_obj_entry]
  rw [← quoteChars_decomp "id"]
  simp only [parseMember_field (f + 6) "id" (intChars s.id) (.num s.id) (sceneTail1 s rest)
    (parseVal_int (f + 5) s.id (sceneTail1 s rest) rfl)]
  simp only [sceneTail1]
  simp only [parseMembers_step (f + 5) _ "narrator" (quoteChars s.narrator) (.str s.narrator)
    (sceneTail2 s rest) (parseVal_quote (f + 4) s.narrator (sceneTail2 s rest))]
  simp only [sceneTail2]
  simp only [parseMembers_step (f + 4) _ "character" (quoteChars s.character) (.str s.character)
    (sceneTail3 s rest) (parseVal_quote (f + 3) s.character (sceneTail3 s rest))]
  simp only [sceneTail3]
  simp only [parseMembers_step (f + 3) _ "characterImagePrompt"
    (quoteChars s.characterImagePrompt) (.str s.characterImagePrompt)
    (sceneTail4 s rest) (parseVal_quote (f + 2) s.characterImagePrompt (sceneTail4 s rest))]
  simp only [sceneTail4]
  simp only [parseMembers_step (f + 2) _ "dialogue" (quoteChars s.dialogue) (.str s.dialogue)
    (sceneTail5 s rest) (parseVal_quote (f + 1) s.dialogue (sceneTail5 s rest))]
  simp only [sceneTail5]
  simp only [parseMembers_step (f + 1) _ "backgroundPrompt" (quoteChars s.backgroundPrompt)
    (.str s.backgroundPrompt) ('}' :: rest) (parseVal_quote f s.backgroundPrompt ('}' :: rest))]
  simp only [parseMembers_close]
  rfl

/-- Serialized tail of an array of scenes after its first element: a
comma-prefixed scene each, closed by the bracket. -/
def sceneItemsChars : List StoryScene → List Char
  | [] => [']']
  | s :: l => ',' :: (sceneChars s ++ sceneItemsChars l)

/-- The comma-joined serialization of a non-empty scene list, with its
closing bracket, is the head scene followed by `sceneItemsChars`. -/
theorem stringifyElems_scenes : ∀ (l : List StoryScene) (s : StoryScene),
    stringifyElems ((s :: l).map sceneToJs) ++ [']'] = sceneChars s ++ sceneItemsChars l := by
  intro l
  induction l with
  | nil =>
    intro s
    simp [stringifyElems, stringify_scene, sceneItemsChars, List.map]
  | cons s2 l2 ih =>
    intro s
    simp only [List.map_cons]
    rw [show stringifyElems (sceneToJs s :: sceneToJs s2 :: List.map sceneToJs l2) =
        stringifyVal (sceneToJs s) ++
          ',' :: stringifyElems (sceneToJs s2 :: List.map sceneToJs l2) from by
      simp [stringifyElems]]
    rw [stringify_scene, List.append_assoc, List.cons_append]
    have ih2 := ih s2
    simp only [List.map_cons] at ih2
    rw [ih2]
    simp [sceneItemsChars]

/-- `JSON.stringify` of a non-empty scene list, decomposed for the parser. -/
theorem stringify_sceneList_cons (s : StoryScene) (l : List StoryScene) :
    stringifyVal (sceneListToJs (s :: l)) = '[' :: (sceneChars s ++ sceneItemsChars l) := by
  have h := stringifyElems_scenes l s
  simp only [List.map_cons] at h
  simp only [sceneListToJs, List.map_cons]
  rw [show stringifyVal (JsValue.arr (sceneToJs s :: List.map sceneToJs l)) =
      '[' :: (stringifyElems (sceneToJs s :: List.map sceneToJs l) ++ [']']) from by
    simp [stringifyVal]]
  rw [h]

/-- `JSON.stringify` of the empty scene list. -/
theorem stringify_sceneList_nil : stringifyVal (sceneListToJs []) = ['[', ']'] := by
  simp [sceneListToJs, stringifyVal, stringifyElems]

/-- The empty-array branch of `parseVal`. -/
theorem parseVal_arr_nil (f : Nat) (rest : List Char) :
    parseVal (f + 1) ('[' :: (']' :: rest)) = some (.arr [], rest) := by
  simp only [parseVal, skipWs_cons '[' _ (by decide), skipWs_cons ']' _ (by decide)]
  rw [if_neg (by decide), if_neg (by decide), if_neg (by decide), if_neg (by decide),
    if_pos trivial]

/-- The array branch of `parseVal` on an object-headed first element. -/
theorem parseVal_arr_entry (f : Nat) (t : List Char) :
    parseVal (f + 1) ('[' :: ('{' :: t)) =
      (match parseVal f ('{' :: t) with
        | none => none
        | some (x, r3) =>
          match parseItems f r3 with
          | none => none
          | some (xs, r4) => some (.arr (x :: xs), r4)) := by
  simp only [parseVal, skipWs_cons '[' _ (by decide), skipWs_cons '{' _ (by decide)]
  rw [if_neg (by decide), if_neg (by decide), if_neg (by decide), if_neg (by decide),
    if_pos trivial]
  rfl

/-- A closing bracket ends an element run. -/
theorem parseItems_close (f : Nat) (rest : List Char) :
    parseItems (f + 1) (']' :: rest) = some ([], rest) := by
  simp only [parseItems, skipWs_cons ']' _ (by decide)]

/-- One further `, value` element conses onto the parsed tail. -/
theorem parseItems_step (f : Nat) (vchars : List Char) (v : JsValue) (rest : List Char)
    (hv : parseVal f (vchars ++ rest) = some (v, rest)) :
    parseItems (f + 1) (',' :: (vchars ++ rest)) =
      (match parseItems f rest with
        | none => none
        | some (xs, r2) => some (v :: xs, r2)) := by
  simp only [parseItems, skipWs_cons ',' _ (by decide), hv]

/-- Every serialized tail of a scene array parses back to the mapped scene
list (one fuel unit per remaining element plus the per-scene depth). -/
theorem parseItems_scenes (l : List StoryScene) : ∀ (f : Nat) (rest : List Char),
    parseItems (l.length + f + 9) (sceneItemsChars l ++ rest) =
      some (l.map sceneToJs, rest) := by
  induction l with
  | nil =>
    intro f rest
    rw [show List.length ([] : List StoryScene) + f + 9 = (f + 8) + 1 from by simp]
    simp only [sceneItemsChars, List.cons_append, List.nil_append]
    rw [parseItems_close (f + 8) rest]
    simp [List.map]
  | cons s l ih =>
    intro f rest
    rw [show (s :: l).length + f + 9 = (l.length + f + 1 + 8) + 1 from by
      simp [List.length_cons]; omega]
    simp only [sceneItemsChars, List.cons_append, List.append_assoc]
    rw [parseItems_step (l.length + f + 1 + 8) (sceneChars s) (sceneToJs s)
      (sceneItemsChars l ++ rest) (parseVal_scene (l.length + f + 1) s (sceneItemsChars l ++ rest))]
    rw [show l.length + f + 1 + 8 = l.length + f + 9 from rfl]
    rw [ih f rest]
    simp [List.map]

/-- A serialized scene list parses back to its `JsValue` form. -/
theorem parseVal_sceneList (l : List StoryScene) (f : Nat) (rest : List Char) :
    parseVal (l.length + f + 10) (stringifyVal (sceneListToJs l) ++ rest) =
      some (sceneListToJs l, rest) := by
  cases l with
  | nil =>
    rw [stringify_sceneList_nil]
    rw [show List.length ([] : List StoryScene) + f + 10 = (f + 9) + 1 from by simp]
    exact parseVal_arr_nil (f + 9) rest
  | cons s t =>
    rw [stringify_sceneList_cons, List.cons_append, List.append_assoc,
      sceneChars_append s (sceneItemsChars t ++ rest)]
    rw [show (s :: t).length + f + 10 = (t.length + f + 2 + 8) + 1 from by
      simp [List.length_cons]; omega]
    rw [parseVal_arr_entry]
    rw [← sceneChars_append s (sceneItemsChars t ++ rest)]
    simp only [parseVal_scene (t.length + f + 2) s (sceneItemsChars t ++ rest)]
    rw [show t.length + f + 2 + 8 = t.length + (f + 1) + 9 from rfl]
    simp only [parseItems_scenes t (f + 1) rest]
    simp [sceneListToJs]

/-- Each scene occupies at least one serialized character, so the list length
is below the serialization length (used to discharge the parse fuel). -/
theorem sceneItemsChars_length (l : List StoryScene) :
    l.length ≤ (sceneItemsChars l).length := by
  induction l with
  | nil => simp [sceneItemsChars]
  | cons s t ih =>
    simp only [sceneItemsChars, List.length_cons, List.length_append]
    omega

/-- The serialized form of a scene list is at least as long as the list. -/
theorem sceneList_length_le (l : List StoryScene) :
    l.length ≤ (stringifyVal (sceneListToJs l)).length := by
  cases l with
  | nil => simp
  | cons s t =>
    rw [stringify_sceneList_cons]
    have h := sceneItemsChars_length t
    simp only [List.length_cons, List.length_append]
    omega

/-- `JSON.parse` inverts `JSON.stringify` on every well-formed scene list. -/
theorem parseJson_sceneList (l : List StoryScene) :
    parseJson (stringify (sceneListToJs l)) = some (sceneListToJs l) := by
  have hlen := sceneList_length_le l
  obtain ⟨d, hd⟩ := Nat.exists_eq_add_of_le hlen
  have hfuel : 2 * (stringify (sceneListToJs l)).length + 16 =
      l.length + (l.length + 2 * d + 6) + 10 := by
    have hs : (stringify (sceneListToJs l)).length =
        (stringifyVal (sceneListToJs l)).length := rfl
    omega
  simp only [parseJson]
  rw [hfuel]
  rw [show (stringify (sceneListToJs l)).toList = stringifyVal (sceneListToJs l) ++ [] from by
    simp [stringify]]
  simp only [parseVal_sceneList l (l.length + 2 * d + 6) []]
  simp [skipJsonWs]

/-- A serialized scene list is never the empty string (it starts with a
bracket), so the column's falsy-check does not fire on it. -/
theorem stringify_sceneList_ne_empty (l : List StoryScene) :
    (stringify (sceneListToJs l) == "") = false := by
  have hne : stringify (sceneListToJs l) ≠ "" := by
    cases l with
    | nil => decide
    | cons s t =>
      rw [stringify, stringify_sceneList_cons]
      intro h
      exact absurd (congrArg String.toList h) (by simp)
  exact beq_eq_false_iff_ne.mpr hne

/-- C8: for every well-formed scene list `v`, serializing it through the
session model's `prepare` and deserializing through its `consume` yields a
structurally identical scene list: `consume (prepare v) = v`. -/
theorem currentStoryState_roundtrip (scenes : List StoryScene) :
    consume (prepare (sceneListToJs scenes)) = .ok (sceneListToJs scenes) := by
  have htr : truthy (sceneListToJs scenes) = true := rfl
  simp only [prepare, htr, if_true, consume, stringify_sceneList_ne_empty scenes,
    Bool.false_eq_true, if_false, parseJson_sceneList scenes]
